import Mathlib

/-!
Shallow embedding of the terminal screen model of `src/kitty/screen.c`.

The grid is modelled functionally: a row is a function from column index to
cell, a line buffer is a function from row index to row.  Machine unsigned
integers are modelled by `Nat`; the one place where 32-bit wraparound is
load-bearing (the DECOM adjustment in `report_device_status`) uses an
explicit `% 2^32`.

Code of the repository that is not under `src/` (line.c, linebuf.c,
historybuf.c, cursor.c, the charset tables, modes.h constants and the
unicode tables) is modelled from the spec; each such definition carries a
doc comment starting with `Modelled from the spec:`.
-/

namespace Kitty

/-- Modelled from the spec: empty cells have codepoint 0 ("0 = empty"). The
constant `BLANK_CHAR` lives in the repository's data-types.h, which is not
under src/. -/
def BLANK_CHAR : Nat := 0

/-- Modelled from the spec: the savepoint stacks are rings of depth 10
("ring of depth 10 (overwrites oldest on overflow)"); the constant
`SAVEPOINTS_SZ` lives in data-types.h, which is not under src/. -/
def SAVEPOINTS_SZ : Nat := 10

/-- One grid cell: codepoint, width class, combining marks, colors and
style bits (spec section 3, backing the Cell of data-types.h). -/
structure Cell where
  ch : Nat
  width : Nat
  combining : List Nat
  fg : Nat
  bg : Nat
  decoration_fg : Nat
  bold : Bool
  italic : Bool
  reverse : Bool
  strikethrough : Bool
  decoration : Nat
deriving Repr, DecidableEq

/-- Modelled from the spec: a fresh/blank cell — codepoint 0 (empty), no
combining marks, default colors and attributes. -/
def blankCell : Cell :=
  { ch := BLANK_CHAR, width := 1, combining := [], fg := 0, bg := 0,
    decoration_fg := 0, bold := false, italic := false, reverse := false,
    strikethrough := false, decoration := 0 }

/-- A screen line: cells indexed by column, plus the per-line `continued`
flag (`continued_map` entry in the C LineBuf). -/
structure Row where
  cells : Nat → Cell
  continued : Bool

def blankRow : Row := { cells := fun _ => blankCell, continued := false }

/-- The visible grid: `ynum` rows of `xnum` cells, rows indexed by row
number with logical row 0 at the top. -/
structure LineBuf where
  xnum : Nat
  ynum : Nat
  rows : Nat → Row

/-- Modelled from the spec: `alloc_linebuf` produces a grid of blank
lines. -/
def alloc_linebuf (lines columns : Nat) : LineBuf :=
  { xnum := columns, ynum := lines, rows := fun _ => blankRow }

/-- Scrollback: a ring of capacity `ynum` holding evicted lines, newest
first, oldest dropped when full (spec section 3, HistoryBuf). -/
structure HistoryBuf where
  xnum : Nat
  ynum : Nat
  data : List Row

/-- Modelled from the spec: `alloc_historybuf` produces an empty history
ring of the given capacity. -/
def alloc_historybuf (lines columns : Nat) : HistoryBuf :=
  { xnum := columns, ynum := lines, data := [] }

/-- Modelled from the spec: `historybuf_add_line` appends a line as the
newest history entry; when the ring is full the oldest line is
discarded. -/
def historybuf_add_line (h : HistoryBuf) (l : Row) : HistoryBuf :=
  { h with data := (l :: h.data).take h.ynum }

/-- The cursor: position plus the current graphic rendition (cursor of
data-types.h; the rendition fields mirror the Cell attributes). -/
structure Cursor where
  x : Nat
  y : Nat
  shape : Nat
  blink : Bool
  fg : Nat
  bg : Nat
  decoration_fg : Nat
  bold : Bool
  italic : Bool
  reverse : Bool
  strikethrough : Bool
  decoration : Nat
deriving Repr, DecidableEq

/-- Modelled from the spec: `cursor_reset` (cursor.c is not under src/)
returns the cursor to its default state. -/
def cursor_reset (_ : Cursor) : Cursor :=
  { x := 0, y := 0, shape := 0, blink := false, fg := 0, bg := 0,
    decoration_fg := 0, bold := false, italic := false, reverse := false,
    strikethrough := false, decoration := 0 }

/-- Modelled from the spec: `cursor_reset_display_attrs` (cursor.c is not
under src/) resets only the graphic rendition, used by SGR 0 ("0 reset all
rendition"). -/
def cursor_reset_display_attrs (c : Cursor) : Cursor :=
  { c with
    fg := 0, bg := 0, decoration_fg := 0, bold := false,
    italic := false, reverse := false, strikethrough := false,
    decoration := 0 }

/-- The DEC/ANSI mode bitfield (`ScreenModes`). -/
structure Modes where
  mLNM : Bool
  mIRM : Bool
  mDECAWM : Bool
  mDECTCEM : Bool
  mDECARM : Bool
  mDECOM : Bool
  mDECSCNM : Bool
  mDECCKM : Bool
  mDECCOLM : Bool
  mBRACKETED_PASTE : Bool
  mEXTENDED_KEYBOARD : Bool
  mFOCUS_TRACKING : Bool
  mouse_tracking_mode : Nat
  mouse_tracking_protocol : Nat
deriving Repr, DecidableEq

/-- `empty_modes`: the default mode set (`{0, .mDECAWM=true, .mDECTCEM=true,
.mDECARM=true}` in screen.c line 15). -/
def empty_modes : Modes :=
  { mLNM := false, mIRM := false, mDECAWM := true, mDECTCEM := true,
    mDECARM := true, mDECOM := false, mDECSCNM := false, mDECCKM := false,
    mDECCOLM := false, mBRACKETED_PASTE := false,
    mEXTENDED_KEYBOARD := false, mFOCUS_TRACKING := false,
    mouse_tracking_mode := 0, mouse_tracking_protocol := 0 }

/-- A savepoint: cursor snapshot plus DECOM, DECAWM, DECSCNM and the
charset state (screen.c `screen_save_cursor`). -/
structure Savepoint where
  cursor : Cursor
  mDECOM : Bool
  mDECAWM : Bool
  mDECSCNM : Bool
  g0_charset : Nat
  g1_charset : Nat
  g_charset : Nat
  utf8_state : Nat
  utf8_codepoint : Nat
  use_latin1 : Bool
deriving Repr, DecidableEq

/-- `savepoints_push` (screen.c lines 685-691): the C ring of capacity
`SAVEPOINTS_SZ` with newest entry last is modelled as a newest-first list;
pushing onto a full ring silently overwrites the oldest entry. -/
def savepoints_push (buf : List Savepoint) (sp : Savepoint) : List Savepoint :=
  (sp :: buf).take SAVEPOINTS_SZ

/-- `savepoints_pop` (screen.c lines 693-698): returns the newest savepoint
and the remaining buffer, or `none` when empty. -/
def savepoints_pop (buf : List Savepoint) : Option (Savepoint × List Savepoint) :=
  match buf with
  | [] => none
  | sp :: rest => some (sp, rest)

/-- The screen aggregate (`Screen` of data-types.h restricted to the state
that screen.c manipulates).  The C code's `self->linebuf` /
`self->tabstops` pointers are modelled by the booleans `linebuf_is_main` /
`tabstops_is_main`; the charset table pointers `g0/g1/g_charset` are
modelled by the numeric id passed to `translation_table`. -/
structure Screen where
  columns : Nat
  lines : Nat
  main_linebuf : LineBuf
  alt_linebuf : LineBuf
  linebuf_is_main : Bool
  historybuf : HistoryBuf
  cursor : Cursor
  modes : Modes
  margin_top : Nat
  margin_bottom : Nat
  main_savepoints : List Savepoint
  alt_savepoints : List Savepoint
  main_tabstops : Nat → Bool
  alt_tabstops : Nat → Bool
  tabstops_is_main : Bool
  g0_charset : Nat
  g1_charset : Nat
  g_charset : Nat
  utf8_state : Nat
  utf8_codepoint : Nat
  use_latin1 : Bool
  is_dirty : Bool
  cursor_changed : Bool
  history_line_added_count : Nat

/-- `init_tabstops` (screen.c lines 19-25): a tab stop every 8 columns,
at columns 7, 15, 23, ... (0-based). -/
def init_tabstops (count : Nat) : Nat → Bool :=
  fun t => decide (t < count ∧ (t + 1) % 8 = 0)

/-- The constructor `new` (screen.c lines 40-81): a fresh screen with blank
buffers, default modes, margins spanning the whole screen and history
capacity `max scrollback lines`. -/
def screen_create (lines columns scrollback : Nat) : Screen :=
  { columns := columns, lines := lines,
    main_linebuf := alloc_linebuf lines columns,
    alt_linebuf := alloc_linebuf lines columns,
    linebuf_is_main := true,
    historybuf := alloc_historybuf (max scrollback lines) columns,
    cursor := cursor_reset
      { x := 0, y := 0, shape := 0, blink := false,
        fg := 0, bg := 0, decoration_fg := 0, bold := false, italic := false,
        reverse := false, strikethrough := false, decoration := 0 },
    modes := empty_modes,
    margin_top := 0, margin_bottom := lines - 1,
    main_savepoints := [], alt_savepoints := [],
    main_tabstops := init_tabstops columns,
    alt_tabstops := init_tabstops columns,
    tabstops_is_main := true,
    g0_charset := 0, g1_charset := 0, g_charset := 0,
    utf8_state := 0, utf8_codepoint := 0, use_latin1 := false,
    is_dirty := true, cursor_changed := true,
    history_line_added_count := 0 }

-- Accessors for the active buffer / tabstops / savepoint stack.

def activeLinebuf (s : Screen) : LineBuf :=
  if s.linebuf_is_main then s.main_linebuf else s.alt_linebuf

def setActiveLinebuf (s : Screen) (f : LineBuf → LineBuf) : Screen :=
  if s.linebuf_is_main then { s with main_linebuf := f s.main_linebuf }
  else { s with alt_linebuf := f s.alt_linebuf }

def activeTabstops (s : Screen) : Nat → Bool :=
  if s.tabstops_is_main then s.main_tabstops else s.alt_tabstops

def setActiveTabstops (s : Screen) (f : (Nat → Bool) → (Nat → Bool)) : Screen :=
  if s.tabstops_is_main then { s with main_tabstops := f s.main_tabstops }
  else { s with alt_tabstops := f s.alt_tabstops }

/-- The savepoint stack selected in `screen_save_cursor` /
`screen_restore_cursor`: the main stack when the main buffer is active. -/
def activeSavepoints (s : Screen) : List Savepoint :=
  if s.linebuf_is_main then s.main_savepoints else s.alt_savepoints

def setActiveSavepoints (s : Screen) (l : List Savepoint) : Screen :=
  if s.linebuf_is_main then { s with main_savepoints := l }
  else { s with alt_savepoints := l }

-- Observation helpers used by the theorems.

/-- The codepoint of cell (row `y`, column `x`) of the active buffer. -/
def charAt (s : Screen) (y x : Nat) : Nat :=
  (((activeLinebuf s).rows y).cells x).ch

/-- The foreground color of cell (row `y`, column `x`) of the active buffer. -/
def fgAt (s : Screen) (y x : Nat) : Nat :=
  (((activeLinebuf s).rows y).cells x).fg

/-- The `continued` flag of row `y` of the active buffer. -/
def continuedAt (s : Screen) (y : Nat) : Bool :=
  ((activeLinebuf s).rows y).continued

-- Character classification and charsets ------------------------------------

/-- Modelled from the spec: `is_ignored_char` (unicode-data.h is not under
src/) holds for the non-printable control characters that are not handled
by the parser; printable characters and combining marks are not ignored. -/
def is_ignored_char (ch : Nat) : Bool :=
  decide (ch < 32) || decide (ch = 127)

/-- Modelled from the spec: `is_combining_char` (unicode-data.h is not
under src/); the combining diacritical marks block stands in for the full
table. -/
def is_combining_char (ch : Nat) : Bool :=
  decide (768 ≤ ch ∧ ch ≤ 879)

/-- Modelled from the spec: the width table behind `safe_wcwidth`
(screen.c lines 239-244 clamp it to [0,2] with negative widths becoming 1);
combining marks have width 0, a CJK block stands in for the width-2
codepoints, everything else has width 1. -/
def safe_wcwidth (ch : Nat) : Nat :=
  if is_combining_char ch then 0
  else if 19968 ≤ ch ∧ ch ≤ 40959 then 2
  else 1

/-- Modelled from the spec: the charset translation tables (referenced by
`translation_table` in screen.c; the tables themselves are not under src/)
are "identity unless a DEC special-graphics or similar charset is active".
Tables are identified by the numeric argument of `designate_charset`; the
claims only exercise the default table 0, so lookup is the identity. -/
def charset_lookup (_table : Nat) (ch : Nat) : Nat := ch

/-- Modelled from the spec: `translation_table(as)` returns the table for
charset `as`; tables are modelled by their id. -/
def translation_table (as : Nat) : Nat := as

-- Line primitives (line.c is not under src/) --------------------------------

/-- Modelled from the spec: the cell written by `line_set_char` — the
codepoint, the width class and the cursor's current rendition; combining
marks are cleared. -/
def cellFromCursor (ch width : Nat) (cur : Cursor) : Cell :=
  { ch := ch, width := width, combining := [], fg := cur.fg, bg := cur.bg,
    decoration_fg := cur.decoration_fg, bold := cur.bold,
    italic := cur.italic, reverse := cur.reverse,
    strikethrough := cur.strikethrough, decoration := cur.decoration }

def row_set_cell (r : Row) (x : Nat) (c : Cell) : Row :=
  { r with cells := fun i => if i = x then c else r.cells i }

/-- Modelled from the spec: `line_set_char(line, at, ch, width, cursor)`
writes the codepoint plus the current rendition at column `at`. -/
def line_set_char (r : Row) (at_ ch width : Nat) (cur : Cursor) : Row :=
  row_set_cell r at_ (cellFromCursor ch width cur)

/-- Modelled from the spec: `line_add_combining_char` attaches a combining
mark to the cell at column `at`; at most K = 2 marks are kept, excess is
dropped ("up to K combining codepoints (K ≥ 2; excess dropped)"). -/
def line_add_combining_char (r : Row) (ch at_ : Nat) : Row :=
  let old := r.cells at_
  row_set_cell r at_ { old with combining := (old.combining ++ [ch]).take 2 }

/-- Modelled from the spec: `line_right_shift(line, at, num)` shifts the
cells from column `at` right by `num`; cells falling off the right are
discarded, cells [at, at+num) keep their old contents (the caller
overwrites them). -/
def line_right_shift (r : Row) (at_ num : Nat) : Row :=
  { r with cells := fun i =>
      if at_ + num ≤ i then r.cells (i - num) else r.cells i }

/-- Modelled from the spec: `left_shift_line(line, at, num)` shifts the
cells after `at+num` left by `num` within a row of width `xnum`; the last
`num` cells keep their old contents (the caller blanks them). -/
def left_shift_line (r : Row) (at_ num xnum : Nat) : Row :=
  { r with cells := fun i =>
      if at_ ≤ i ∧ i + num < xnum then r.cells (i + num) else r.cells i }

/-- Modelled from the spec: `line_clear_text(line, at, num, ch)` resets the
codepoint of cells [at, at+num) to `ch`, dropping combining marks but
preserving the cell attributes ("only clear text (preserve
attributes)"). -/
def line_clear_text (r : Row) (at_ num ch : Nat) : Row :=
  { r with cells := fun i =>
      if at_ ≤ i ∧ i < at_ + num then
        { r.cells i with ch := ch, width := 1, combining := [] }
      else r.cells i }

/-- Modelled from the spec: `line_apply_cursor(line, cursor, at, num, true)`
overwrites cells [at, at+num) with a blank carrying the cursor's current
rendition ("blank + current rendition"). -/
def line_apply_cursor (r : Row) (cur : Cursor) (at_ num : Nat) : Row :=
  { r with cells := fun i =>
      if at_ ≤ i ∧ i < at_ + num then cellFromCursor BLANK_CHAR 1 cur
      else r.cells i }

-- LineBuf primitives (linebuf.c is not under src/) --------------------------

def linebuf_set_row (lb : LineBuf) (y : Nat) (r : Row) : LineBuf :=
  { lb with rows := fun j => if j = y then r else lb.rows j }

def linebuf_mod_row (lb : LineBuf) (y : Nat) (f : Row → Row) : LineBuf :=
  linebuf_set_row lb y (f (lb.rows y))

/-- Modelled from the spec: `linebuf_clear_line(y)` resets all cells of row
`y` and sets `continued = false` ("clear_line(y): reset all cells and
continued=false"). -/
def linebuf_clear_line (lb : LineBuf) (y : Nat) : LineBuf :=
  linebuf_set_row lb y blankRow

/-- Modelled from the spec: `linebuf_clear(ch)` resets every line, writing
codepoint `ch` into every cell, and clears every `continued` flag. -/
def linebuf_clear (lb : LineBuf) (ch : Nat) : LineBuf :=
  { lb with rows := fun _ => { blankRow with cells := fun _ => { blankCell with ch := ch } } }

/-- Modelled from the spec: `linebuf_index(top, bottom)` rotates rows
[top..bottom] up by one: row top+1 becomes row top, ..., and the previous
top row moves to position `bottom` (where screen.c then reads it for the
history before clearing it). -/
def linebuf_index (lb : LineBuf) (top bottom : Nat) : LineBuf :=
  { lb with rows := fun y =>
      if y < top ∨ bottom < y then lb.rows y
      else if y = bottom then lb.rows top
      else lb.rows (y + 1) }

/-- Modelled from the spec: `linebuf_reverse_index(top, bottom)` is the
inverse rotation: rows move down by one inside the region, the previous
bottom row moves to position `top`. -/
def linebuf_reverse_index (lb : LineBuf) (top bottom : Nat) : LineBuf :=
  { lb with rows := fun y =>
      if y < top ∨ bottom < y then lb.rows y
      else if y = top then lb.rows bottom
      else lb.rows (y - 1) }

/-- Modelled from the spec: `linebuf_insert_lines(n, y, bottom)` shifts
rows [y..bottom-n] down by n and fills rows [y..y+n-1] blank, with n
clamped to the region size ("n clamped to bottom-y+1"). -/
def linebuf_insert_lines (lb : LineBuf) (num y bottom : Nat) : LineBuf :=
  let n := min num (bottom + 1 - y)
  { lb with rows := fun j =>
      if j < y ∨ bottom < j then lb.rows j
      else if j < y + n then blankRow
      else lb.rows (j - n) }

/-- Modelled from the spec: `linebuf_delete_lines(n, y, bottom)` shifts
rows [y+n..bottom] up by n and fills the last n rows of the region
blank. -/
def linebuf_delete_lines (lb : LineBuf) (num y bottom : Nat) : LineBuf :=
  let n := min num (bottom + 1 - y)
  { lb with rows := fun j =>
      if j < y ∨ bottom < j then lb.rows j
      else if j + n ≤ bottom then lb.rows (j + n)
      else blankRow }

-- Cursor motion and bounds (screen.c, Cursor section) -----------------------

/-- `screen_ensure_bounds` (screen.c lines 739-749): clamp x into
[0, columns-1] and y into the margins when forced or DECOM is on, else
into [0, lines-1]. -/
def screen_ensure_bounds (s : Screen) (force_use_margins : Bool) : Screen :=
  let top := if force_use_margins || s.modes.mDECOM then s.margin_top else 0
  let bottom := if force_use_margins || s.modes.mDECOM then s.margin_bottom else s.lines - 1
  { s with cursor := { s.cursor with
      x := min s.cursor.x (s.columns - 1),
      y := max top (min s.cursor.y bottom) } }

/-- `screen_carriage_return` (screen.c lines 670-676). -/
def screen_carriage_return (s : Screen) : Screen :=
  if s.cursor.x ≠ 0 then
    { s with cursor := { s.cursor with x := 0 }, cursor_changed := true }
  else s

/-- `screen_cursor_position(line, column)` (screen.c lines 751-763):
1-based input, DECOM offsets and clamps the line into the margins. -/
def screen_cursor_position (s : Screen) (line column : Nat) : Screen :=
  let line := (if line = 0 then 1 else line) - 1
  let column := (if column = 0 then 1 else column) - 1
  let line := if s.modes.mDECOM then
      max s.margin_top (min (line + s.margin_top) s.margin_bottom)
    else line
  let x0 := s.cursor.x
  let y0 := s.cursor.y
  let s1 := screen_ensure_bounds
    { s with cursor := { s.cursor with x := column, y := line } } false
  if x0 ≠ s1.cursor.x ∨ y0 ≠ s1.cursor.y then { s1 with cursor_changed := true }
  else s1

/-- `screen_cursor_to_line` (screen.c lines 765-768). -/
def screen_cursor_to_line (s : Screen) (line : Nat) : Screen :=
  screen_cursor_position s line (s.cursor.x + 1)

/-- `screen_cursor_back(count, move_direction)` (screen.c lines 562-570);
`move_direction` is -1 for back, +1 for forward. -/
def screen_cursor_back (s : Screen) (count0 : Nat) (move_direction : Int) : Screen :=
  let x0 := s.cursor.x
  let count := if count0 = 0 then 1 else count0
  let s1 :=
    if move_direction < 0 ∧ count > s.cursor.x then
      { s with cursor := { s.cursor with x := 0 } }
    else
      { s with cursor := { s.cursor with
          x := (((s.cursor.x : Int) + move_direction * count).toNat) } }
  let s2 := screen_ensure_bounds s1 false
  if x0 ≠ s2.cursor.x then { s2 with cursor_changed := true } else s2

/-- `screen_cursor_forward` (screen.c lines 572-575). -/
def screen_cursor_forward (s : Screen) (count : Nat) : Screen :=
  screen_cursor_back s count 1

/-- `screen_cursor_up(count, do_carriage_return, move_direction)`
(screen.c lines 577-586). -/
def screen_cursor_up (s : Screen) (count0 : Nat) (do_carriage_return : Bool)
    (move_direction : Int) : Screen :=
  let x0 := s.cursor.x
  let y0 := s.cursor.y
  let count := if count0 = 0 then 1 else count0
  let s1 :=
    if move_direction < 0 ∧ count > s.cursor.y then
      { s with cursor := { s.cursor with y := 0 } }
    else
      { s with cursor := { s.cursor with
          y := (((s.cursor.y : Int) + move_direction * count).toNat) } }
  let s2 := screen_ensure_bounds s1 true
  let s3 := if do_carriage_return then
      { s2 with cursor := { s2.cursor with x := 0 } } else s2
  if x0 ≠ s3.cursor.x ∨ y0 ≠ s3.cursor.y then { s3 with cursor_changed := true }
  else s3

def screen_cursor_up1 (s : Screen) (count : Nat) : Screen :=
  screen_cursor_up s count true (-1)

def screen_cursor_down (s : Screen) (count : Nat) : Screen :=
  screen_cursor_up s count false 1

def screen_cursor_down1 (s : Screen) (count : Nat) : Screen :=
  screen_cursor_up s count true 1

/-- `screen_cursor_to_column` (screen.c lines 603-611). -/
def screen_cursor_to_column (s : Screen) (column : Nat) : Screen :=
  let x := (max column 1) - 1
  if x ≠ s.cursor.x then
    let s1 := screen_ensure_bounds { s with cursor := { s.cursor with x := x } } false
    { s1 with cursor_changed := true }
  else s

-- Scrolling (screen.c, INDEX_UP / INDEX_DOWN and friends) --------------------

/-- The `INDEX_UP` macro (screen.c lines 613-622): rotate the margin region
up; when the main buffer is active and no bottom margin is set, the
displaced top line (now sitting at position `bottom` after the rotation)
is appended to the history and `history_line_added_count` is incremented;
the bottom line is then cleared. -/
def index_up (s : Screen) : Screen :=
  let top := s.margin_top
  let bottom := s.margin_bottom
  let s1 := setActiveLinebuf s (fun lb => linebuf_index lb top bottom)
  let s2 :=
    if s1.linebuf_is_main ∧ bottom = s1.lines - 1 then
      { s1 with
        historybuf := historybuf_add_line s1.historybuf ((activeLinebuf s1).rows bottom),
        history_line_added_count := s1.history_line_added_count + 1 }
    else s1
  let s3 := setActiveLinebuf s2 (fun lb => linebuf_clear_line lb bottom)
  { s3 with is_dirty := true }

/-- `screen_index` (screen.c lines 624-631): move the cursor down one
line, scrolling (INDEX_UP) when it sits on the bottom margin. -/
def screen_index (s : Screen) : Screen :=
  if s.cursor.y = s.margin_bottom then index_up s
  else screen_cursor_down s 1

/-- `screen_scroll` (screen.c lines 633-642): INDEX_UP repeated
`min lines count` times, not moving the cursor. -/
def screen_scroll (s : Screen) (count : Nat) : Screen :=
  index_up^[min s.lines count] s

/-- The `INDEX_DOWN` macro (screen.c lines 644-647): rotate the margin
region down and clear the top line; the history is never touched. -/
def index_down (s : Screen) : Screen :=
  let top := s.margin_top
  let bottom := s.margin_bottom
  let s1 := setActiveLinebuf s (fun lb => linebuf_reverse_index lb top bottom)
  let s2 := setActiveLinebuf s1 (fun lb => linebuf_clear_line lb top)
  { s2 with is_dirty := true }

/-- `screen_reverse_index` (screen.c lines 649-656). -/
def screen_reverse_index (s : Screen) : Screen :=
  if s.cursor.y = s.margin_top then index_down s
  else screen_cursor_up s 1 false (-1)

/-- `screen_reverse_scroll` (screen.c lines 658-667). -/
def screen_reverse_scroll (s : Screen) (count : Nat) : Screen :=
  index_down^[min s.lines count] s

/-- `screen_linefeed` (screen.c lines 678-683). -/
def screen_linefeed (s : Screen) : Screen :=
  let s1 := screen_index s
  let s2 := if s1.modes.mLNM then screen_carriage_return s1 else s1
  screen_ensure_bounds s2 false

-- Drawing (screen.c lines 252-291) ------------------------------------------

def screen_set_continued (s : Screen) (y : Nat) (b : Bool) : Screen :=
  setActiveLinebuf s (fun lb => linebuf_mod_row lb y (fun r => { r with continued := b }))

/-- `screen_draw(och)` (screen.c lines 252-291): translate through the
active charset, wrap or stick at the right margin depending on DECAWM,
write the glyph (plus a width-0 continuation cell for a wide glyph) with
the current rendition, or attach a combining mark to the preceding
cell.  Unsigned `columns - cursor.x` is modelled by truncated `Nat`
subtraction, which agrees with the C code whenever `cursor.x ≤ columns`. -/
def screen_draw (s : Screen) (och : Nat) : Screen :=
  if is_ignored_char och then s else
  let ch := if och < 256 then charset_lookup s.g_charset och else och
  let x0 := s.cursor.x
  let y0 := s.cursor.y
  let char_width := safe_wcwidth ch
  let s :=
    if s.columns - s.cursor.x < char_width then
      if s.modes.mDECAWM then
        let s := screen_carriage_return s
        let s := screen_linefeed s
        screen_set_continued s s.cursor.y true
      else
        { s with cursor := { s.cursor with x := s.columns - char_width } }
    else s
  let s :=
    if char_width > 0 then
      let s :=
        if s.modes.mIRM then
          setActiveLinebuf s (fun lb => linebuf_mod_row lb s.cursor.y
            (fun r => line_right_shift r s.cursor.x char_width))
        else s
      let s := setActiveLinebuf s (fun lb => linebuf_mod_row lb s.cursor.y
        (fun r => line_set_char r s.cursor.x ch char_width s.cursor))
      let s := { s with cursor := { s.cursor with x := s.cursor.x + 1 } }
      let s :=
        if char_width = 2 then
          let s := setActiveLinebuf s (fun lb => linebuf_mod_row lb s.cursor.y
            (fun r => line_set_char r s.cursor.x 0 0 s.cursor))
          { s with cursor := { s.cursor with x := s.cursor.x + 1 } }
        else s
      { s with is_dirty := true }
    else
      if is_combining_char ch then
        if s.cursor.x > 0 then
          { (setActiveLinebuf s (fun lb => linebuf_mod_row lb s.cursor.y
              (fun r => line_add_combining_char r ch (s.cursor.x - 1)))) with
            is_dirty := true }
        else if s.cursor.y > 0 then
          { (setActiveLinebuf s (fun lb => linebuf_mod_row lb (s.cursor.y - 1)
              (fun r => line_add_combining_char r ch (s.columns - 1)))) with
            is_dirty := true }
        else s
      else s
  if x0 ≠ s.cursor.x ∨ y0 ≠ s.cursor.y then { s with cursor_changed := true }
  else s

-- Editing (screen.c lines 772-908) ------------------------------------------

/-- `screen_erase_in_line(how, private)` (screen.c lines 774-811). -/
def screen_erase_in_line (s : Screen) (how : Nat) (priv : Bool) : Screen :=
  let sn : Nat × Nat :=
    if how = 0 then (s.cursor.x, s.columns - s.cursor.x)
    else if how = 1 then (0, s.cursor.x + 1)
    else if how = 2 then (0, s.columns)
    else (0, 0)
  if sn.2 > 0 then
    let s1 := setActiveLinebuf s (fun lb => linebuf_mod_row lb s.cursor.y
      (fun r => if priv then line_clear_text r sn.1 sn.2 BLANK_CHAR
                else line_apply_cursor r s.cursor sn.1 sn.2))
    { s1 with is_dirty := true }
  else s

/-- `screen_erase_in_display(how, private)` (screen.c lines 813-851). -/
def screen_erase_in_display (s : Screen) (how : Nat) (priv : Bool) : Screen :=
  if how > 2 then s else
  let ab : Nat × Nat :=
    if how = 0 then (s.cursor.y + 1, s.lines)
    else if how = 1 then (0, s.cursor.y)
    else (0, s.lines)
  let s1 :=
    if ab.2 > ab.1 then
      let s' := setActiveLinebuf s (fun lb =>
        { lb with rows := fun j =>
            if ab.1 ≤ j ∧ j < ab.2 then
              (if priv then line_clear_text (lb.rows j) 0 s.columns BLANK_CHAR
               else line_apply_cursor (lb.rows j) s.cursor 0 s.columns)
            else lb.rows j })
      { s' with is_dirty := true }
    else s
  if how ≠ 2 then screen_erase_in_line s1 how priv else s1

/-- `screen_insert_lines` (screen.c lines 853-861): only inside the
scrolling margins. -/
def screen_insert_lines (s : Screen) (count0 : Nat) : Screen :=
  let count := if count0 = 0 then 1 else count0
  if s.margin_top ≤ s.cursor.y ∧ s.cursor.y ≤ s.margin_bottom then
    let s1 := setActiveLinebuf s (fun lb =>
      linebuf_insert_lines lb count s.cursor.y s.margin_bottom)
    screen_carriage_return { s1 with is_dirty := true }
  else s

/-- `screen_delete_lines` (screen.c lines 863-871): only inside the
scrolling margins. -/
def screen_delete_lines (s : Screen) (count0 : Nat) : Screen :=
  let count := if count0 = 0 then 1 else count0
  if s.margin_top ≤ s.cursor.y ∧ s.cursor.y ≤ s.margin_bottom then
    let s1 := setActiveLinebuf s (fun lb =>
      linebuf_delete_lines lb count s.cursor.y s.margin_bottom)
    screen_carriage_return { s1 with is_dirty := true }
  else s

/-- `screen_insert_characters` (screen.c lines 873-884): only inside the
scrolling margins. -/
def screen_insert_characters (s : Screen) (count0 : Nat) : Screen :=
  let count := if count0 = 0 then 1 else count0
  if s.margin_top ≤ s.cursor.y ∧ s.cursor.y ≤ s.margin_bottom then
    let x := s.cursor.x
    let num := min (s.columns - x) count
    let s1 := setActiveLinebuf s (fun lb => linebuf_mod_row lb s.cursor.y
      (fun r => line_apply_cursor (line_right_shift r x num) s.cursor x num))
    { s1 with is_dirty := true }
  else s

/-- `screen_delete_characters` (screen.c lines 886-898): only inside the
scrolling margins. -/
def screen_delete_characters (s : Screen) (count0 : Nat) : Screen :=
  let count := if count0 = 0 then 1 else count0
  if s.margin_top ≤ s.cursor.y ∧ s.cursor.y ≤ s.margin_bottom then
    let x := s.cursor.x
    let num := min (s.columns - x) count
    let s1 := setActiveLinebuf s (fun lb => linebuf_mod_row lb s.cursor.y
      (fun r => line_apply_cursor (left_shift_line r x num s.columns) s.cursor
        (s.columns - num) num))
    { s1 with is_dirty := true }
  else s

/-- `screen_erase_characters` (screen.c lines 900-908): overwrite
`min(columns-x, count)` cells at the cursor with blank + current
rendition.  Note: unlike the four operations above, the C code performs no
scrolling-margin check here. -/
def screen_erase_characters (s : Screen) (count0 : Nat) : Screen :=
  let count := if count0 = 0 then 1 else count0
  let x := s.cursor.x
  let num := min (s.columns - x) count
  let s1 := setActiveLinebuf s (fun lb => linebuf_mod_row lb s.cursor.y
    (fun r => line_apply_cursor r s.cursor x num))
  { s1 with is_dirty := true }

-- SGR (screen.c lines 314-389) ----------------------------------------------

/-- Modelled from the spec: the numeric value of `UNDERCURL_CODE`
(modes.h is not under src/); the spec only states that it selects the
curly underline (`decoration = 2`).  Any value distinct from the other SGR
case labels is faithful; the claims do not depend on it. -/
def UNDERCURL_CODE : Nat := 403

/-- Modelled from the spec: `DECORATION_FG_CODE` (modes.h is not under
src/), the "extended color for underline/decoration" SGR code; 58 is the
standard underline-color code. -/
def DECORATION_FG_CODE : Nat := 58

/-- One simple (single-parameter) SGR code applied to the cursor rendition
(the plain cases of the switch in `select_graphic_rendition`, screen.c
lines 340-387); unknown codes are ignored. -/
def sgr_apply_single (p : Nat) (c : Cursor) : Cursor :=
  if p = 0 then cursor_reset_display_attrs c
  else if p = 1 then { c with bold := true }
  else if p = 3 then { c with italic := true }
  else if p = 4 then { c with decoration := 1 }
  else if p = UNDERCURL_CODE then { c with decoration := 2 }
  else if p = 7 then { c with reverse := true }
  else if p = 9 then { c with strikethrough := true }
  else if p = 22 then { c with bold := false }
  else if p = 23 then { c with italic := false }
  else if p = 24 then { c with decoration := 0 }
  else if p = 27 then { c with reverse := false }
  else if p = 29 then { c with strikethrough := false }
  else if 30 ≤ p ∧ p ≤ 37 then { c with fg := (p - 30) * 256 + 1 }
  else if p = 39 then { c with fg := 0 }
  else if 40 ≤ p ∧ p ≤ 47 then { c with bg := (p - 40) * 256 + 1 }
  else if p = 49 then { c with bg := 0 }
  else if 90 ≤ p ∧ p ≤ 97 then { c with fg := (p - 90 + 8) * 256 + 1 }
  else if 100 ≤ p ∧ p ≤ 107 then { c with bg := (p - 100 + 8) * 256 + 1 }
  else if p = DECORATION_FG_CODE + 1 then { c with decoration_fg := 0 }
  else c

/-- The truecolor value `r << 24 | g << 16 | b << 8 | 2` with each
component masked to 8 bits, as stored by the `SET_COLOR` macro. -/
def rgb_color (r g b : Nat) : Nat :=
  (r % 256) * 2 ^ 24 + (g % 256) * 2 ^ 16 + (b % 256) * 2 ^ 8 + 2

/-- The parameter loop of `select_graphic_rendition` (screen.c lines
335-388).  The extended-color codes 38/48/`DECORATION_FG_CODE` consume a
selector and then a 256-color index (selector 5) or an RGB triple
(selector 2, only when at least three parameters remain — the `i < count -
2` guard of `SET_COLOR`); an unknown selector, or a truncated triple,
leaves the remaining parameters to be interpreted by the outer loop. -/
def sgr_loop : List Nat → Cursor → Cursor
  | [], c => c
  | 38 :: 2 :: r :: g :: b :: rest, c => sgr_loop rest { c with fg := rgb_color r g b }
  | 38 :: 2 :: rest, c => sgr_loop rest c
  | 38 :: 5 :: idx :: rest, c => sgr_loop rest { c with fg := (idx % 256) * 256 + 1 }
  | 38 :: _ :: rest, c => sgr_loop rest c
  | 48 :: 2 :: r :: g :: b :: rest, c => sgr_loop rest { c with bg := rgb_color r g b }
  | 48 :: 2 :: rest, c => sgr_loop rest c
  | 48 :: 5 :: idx :: rest, c => sgr_loop rest { c with bg := (idx % 256) * 256 + 1 }
  | 48 :: _ :: rest, c => sgr_loop rest c
  | 58 :: 2 :: r :: g :: b :: rest, c => sgr_loop rest { c with decoration_fg := rgb_color r g b }
  | 58 :: 2 :: rest, c => sgr_loop rest c
  | 58 :: 5 :: idx :: rest, c => sgr_loop rest { c with decoration_fg := (idx % 256) * 256 + 1 }
  | 58 :: _ :: rest, c => sgr_loop rest c
  | p :: rest, c => sgr_loop rest (sgr_apply_single p c)

/-- `select_graphic_rendition(params, count)` (screen.c lines 314-389); an
empty parameter list behaves as `[0]`. -/
def select_graphic_rendition (params : List Nat) (c : Cursor) : Cursor :=
  if params = [] then sgr_loop [0] c else sgr_loop params c

/-- The Python-facing `select_graphic_rendition` method applied to a
screen: it rewrites the cursor rendition. -/
def screen_select_graphic_rendition (s : Screen) (params : List Nat) : Screen :=
  { s with cursor := select_graphic_rendition params s.cursor }

-- Mode constants -------------------------------------------------------------

/-- Modelled from the spec: the mode constants of modes.h (not under
src/).  Public ANSI modes keep their numeric code; private DEC modes are
"multiplied by 32 (shift left 5) when routed from the parser", so their
constants carry that shift.  The exact numbers are the standard VT/xterm
codes; the dispatch only relies on the constants being pairwise
distinct. -/
def LNM : Nat := 20
def IRM : Nat := 4
def DECCKM : Nat := 1 * 32
def DECCOLM : Nat := 3 * 32
def DECSCLM : Nat := 4 * 32
def DECSCNM : Nat := 5 * 32
def DECOM : Nat := 6 * 32
def DECAWM : Nat := 7 * 32
def DECARM : Nat := 8 * 32
def CONTROL_CURSOR_BLINK : Nat := 12 * 32
def DECTCEM : Nat := 25 * 32
def DECNRCM : Nat := 42 * 32
def MOUSE_BUTTON_TRACKING : Nat := 1000 * 32
def MOUSE_MOTION_TRACKING : Nat := 1002 * 32
def MOUSE_MOVE_TRACKING : Nat := 1003 * 32
def FOCUS_TRACKING : Nat := 1004 * 32
def MOUSE_UTF8_MODE : Nat := 1005 * 32
def MOUSE_SGR_MODE : Nat := 1006 * 32
def MOUSE_URXVT_MODE : Nat := 1015 * 32
def ALTERNATE_SCREEN : Nat := 1049 * 32
def BRACKETED_PASTE : Nat := 2004 * 32
def EXTENDED_KEYBOARD : Nat := 2017 * 32

/-- Modelled from the spec: the mouse tracking mode / protocol enumeration
values of modes.h (off = 0; the nonzero values only need to be the
distinct constants the MOUSE_MODE cases store). -/
def BUTTON_MODE : Nat := 1
def MOTION_MODE : Nat := 2
def ANY_MODE : Nat := 3
def UTF8_PROTOCOL : Nat := 1
def SGR_PROTOCOL : Nat := 2
def URXVT_PROTOCOL : Nat := 3

/-- The `RESET_CHARSETS` macro (screen.c lines 27-33). -/
def reset_charsets (s : Screen) : Screen :=
  { s with
    g0_charset := translation_table 0,
    g1_charset := translation_table 0,
    g_charset := translation_table 0,
    utf8_state := 0, utf8_codepoint := 0, use_latin1 := false }

/-- All cases of `set_mode_from_const` (screen.c lines 418-490) except
`ALTERNATE_SCREEN`, which is split off (`set_mode_from_const` below) to
break the C code's mutual recursion with `screen_toggle_screen_buffer`;
`screen_restore_cursor` only ever reaches the DECOM / DECAWM / DECSCNM
cases, on which this function and `set_mode_from_const` agree.  Unknown
modes only produce a diagnostic line. -/
def apply_mode_core (s : Screen) (mode : Nat) (val : Bool) : Screen :=
  if mode = LNM then { s with modes := { s.modes with mLNM := val } }
  else if mode = IRM then { s with modes := { s.modes with mIRM := val } }
  else if mode = DECARM then { s with modes := { s.modes with mDECARM := val } }
  else if mode = BRACKETED_PASTE then
    { s with modes := { s.modes with mBRACKETED_PASTE := val } }
  else if mode = EXTENDED_KEYBOARD then
    { s with modes := { s.modes with mEXTENDED_KEYBOARD := val } }
  else if mode = FOCUS_TRACKING then
    { s with modes := { s.modes with mFOCUS_TRACKING := val } }
  else if mode = MOUSE_BUTTON_TRACKING then
    { s with modes := { s.modes with mouse_tracking_mode := if val then BUTTON_MODE else 0 } }
  else if mode = MOUSE_MOTION_TRACKING then
    { s with modes := { s.modes with mouse_tracking_mode := if val then MOTION_MODE else 0 } }
  else if mode = MOUSE_MOVE_TRACKING then
    { s with modes := { s.modes with mouse_tracking_mode := if val then ANY_MODE else 0 } }
  else if mode = MOUSE_UTF8_MODE then
    { s with modes := { s.modes with mouse_tracking_protocol := if val then UTF8_PROTOCOL else 0 } }
  else if mode = MOUSE_SGR_MODE then
    { s with modes := { s.modes with mouse_tracking_protocol := if val then SGR_PROTOCOL else 0 } }
  else if mode = MOUSE_URXVT_MODE then
    { s with modes := { s.modes with mouse_tracking_protocol := if val then URXVT_PROTOCOL else 0 } }
  else if mode = DECSCLM ∨ mode = DECNRCM then s
  else if mode = DECCKM then { s with modes := { s.modes with mDECCKM := val } }
  else if mode = DECTCEM then
    { s with modes := { s.modes with mDECTCEM := val }, cursor_changed := true }
  else if mode = DECSCNM then
    if s.modes.mDECSCNM ≠ val then
      { s with modes := { s.modes with mDECSCNM := val }, is_dirty := true }
    else s
  else if mode = DECOM then
    screen_cursor_position { s with modes := { s.modes with mDECOM := val } } 1 1
  else if mode = DECAWM then { s with modes := { s.modes with mDECAWM := val } }
  else if mode = DECCOLM then
    let s1 := { s with modes := { s.modes with mDECCOLM := val } }
    screen_cursor_position (screen_erase_in_display s1 2 false) 1 1
  else if mode = CONTROL_CURSOR_BLINK then
    { s with cursor := { s.cursor with blink := val }, cursor_changed := true }
  else s

-- Savepoints and the alternate screen (screen.c lines 685-737, 396-413) -----

/-- The savepoint record pushed by `screen_save_cursor` (screen.c lines
708-717): cursor copy, DECOM, DECAWM, DECSCNM and the charset state
(`COPY_CHARSETS`). -/
def mkSavepoint (s : Screen) : Savepoint :=
  { cursor := s.cursor,
    mDECOM := s.modes.mDECOM,
    mDECAWM := s.modes.mDECAWM,
    mDECSCNM := s.modes.mDECSCNM,
    g0_charset := s.g0_charset,
    g1_charset := s.g1_charset,
    g_charset := s.g_charset,
    utf8_state := s.utf8_state,
    utf8_codepoint := s.utf8_codepoint,
    use_latin1 := s.use_latin1 }

/-- `screen_save_cursor` (screen.c lines 708-717): push onto the active
buffer's savepoint ring. -/
def screen_save_cursor (s : Screen) : Screen :=
  setActiveSavepoints s (savepoints_push (activeSavepoints s) (mkSavepoint s))

/-- `screen_restore_cursor` (screen.c lines 719-737): pop the active
buffer's stack; when empty, home the cursor and reset DECOM, the charsets
and DECSCNM; otherwise restore all captured fields and clamp with
`ensure_bounds(false)`. -/
def screen_restore_cursor (s : Screen) : Screen :=
  match savepoints_pop (activeSavepoints s) with
  | none =>
    let s1 := { screen_cursor_position s 1 1 with cursor_changed := true }
    let s2 := apply_mode_core s1 DECOM false
    let s3 := reset_charsets s2
    apply_mode_core s3 DECSCNM false
  | some (sp, rest) =>
    let s1 := setActiveSavepoints s rest
    let s2 := { s1 with
      g0_charset := sp.g0_charset, g1_charset := sp.g1_charset,
      g_charset := sp.g_charset, utf8_state := sp.utf8_state,
      utf8_codepoint := sp.utf8_codepoint, use_latin1 := sp.use_latin1 }
    let s3 := apply_mode_core s2 DECOM sp.mDECOM
    let s4 := apply_mode_core s3 DECAWM sp.mDECAWM
    let s5 := apply_mode_core s4 DECSCNM sp.mDECSCNM
    screen_ensure_bounds { s5 with cursor := sp.cursor } false

/-- `screen_toggle_screen_buffer` (screen.c lines 396-413): entering the
alt screen clears it, pushes a savepoint (on the main stack) and resets
the cursor; leaving it pops and restores.  The `buf_toggled` callback has
no screen-state effect. -/
def screen_toggle_screen_buffer (s : Screen) : Screen :=
  if s.linebuf_is_main then
    let s1 := { s with alt_linebuf := linebuf_clear s.alt_linebuf BLANK_CHAR }
    let s2 := screen_save_cursor s1
    let s3 := { s2 with linebuf_is_main := false, tabstops_is_main := false }
    let s4 := screen_cursor_position s3 1 1
    { s4 with cursor := cursor_reset s4.cursor, is_dirty := true }
  else
    let s1 := { s with linebuf_is_main := true, tabstops_is_main := true }
    { screen_restore_cursor s1 with is_dirty := true }

/-- `set_mode_from_const` (screen.c lines 418-490), including the
`ALTERNATE_SCREEN` case. -/
def set_mode_from_const (s : Screen) (mode : Nat) (val : Bool) : Screen :=
  if mode = ALTERNATE_SCREEN then
    if val ∧ s.linebuf_is_main then screen_toggle_screen_buffer s
    else if ¬val ∧ ¬s.linebuf_is_main then screen_toggle_screen_buffer s
    else s
  else apply_mode_core s mode val

/-- `screen_set_mode` (screen.c lines 492-494). -/
def screen_set_mode (s : Screen) (mode : Nat) : Screen :=
  set_mode_from_const s mode true

/-- `screen_reset_mode` (screen.c lines 496-498). -/
def screen_reset_mode (s : Screen) (mode : Nat) : Screen :=
  set_mode_from_const s mode false

-- Tabs (screen.c lines 509-560) ----------------------------------------------

/-- `screen_tab` (screen.c lines 509-521): advance to the next tab stop, or
the last column when there is none. -/
def screen_tab (s : Screen) : Screen :=
  let found :=
    match (List.range s.columns).find?
      (fun i => decide (s.cursor.x + 1 ≤ i) && activeTabstops s i) with
    | some i => i
    | none => 0
  let found := if found = 0 then s.columns - 1 else found
  if found ≠ s.cursor.x then
    { s with cursor := { s.cursor with x := found }, cursor_changed := true }
  else s

/-- One step of the `screen_backtab` outer loop: the largest tab-stop
column strictly before `x`, or 0 when there is none. -/
def backtab_prev (ts : Nat → Bool) (x : Nat) : Nat :=
  match (List.range x).reverse.find? ts with
  | some j => j
  | none => 0

def backtab_go (ts : Nat → Bool) : Nat → Nat → Nat
  | 0, x => x
  | c + 1, x => if x > 0 then backtab_go ts c (backtab_prev ts x) else x

/-- `screen_backtab(count)` (screen.c lines 523-537). -/
def screen_backtab (s : Screen) (count0 : Nat) : Screen :=
  let count := if count0 = 0 then 1 else count0
  let x' := backtab_go (activeTabstops s) count s.cursor.x
  if s.cursor.x ≠ x' then
    { s with cursor := { s.cursor with x := x' }, cursor_changed := true }
  else s

/-- `screen_clear_tab_stop(how)` (screen.c lines 539-554): 0 clears the
stop at the cursor, 2 is a no-op, 3 clears all, anything else only
produces a diagnostic. -/
def screen_clear_tab_stop (s : Screen) (how : Nat) : Screen :=
  if how = 0 then
    if s.cursor.x < s.columns then
      setActiveTabstops s (fun ts i => if i = s.cursor.x then false else ts i)
    else s
  else if how = 3 then
    setActiveTabstops s (fun ts i => if i < s.columns then false else ts i)
  else s

/-- `screen_set_tab_stop` (screen.c lines 556-560). -/
def screen_set_tab_stop (s : Screen) : Screen :=
  if s.cursor.x < s.columns then
    setActiveTabstops s (fun ts i => if i = s.cursor.x then true else ts i)
  else s

/-- `screen_backspace` (screen.c lines 504-507). -/
def screen_backspace (s : Screen) : Screen :=
  screen_cursor_back s 1 (-1)

-- Device reports (screen.c lines 945-966) ------------------------------------

/-- `report_device_status(which, private)` (screen.c lines 945-966): the
bytes written to the child, or `none` for an unimplemented code.  The
function only reads screen state.  Unsigned 32-bit subtraction in the
DECOM adjustment `y -= MAX(y, margin_top)` is modelled exactly, with its
wraparound. -/
def report_device_status (s : Screen) (which : Nat) (priv : Bool) : Option String :=
  if which = 5 then some "\x1b[0n"
  else if which = 6 then
    let x := s.cursor.x
    let y := s.cursor.y
    let xy : Nat × Nat :=
      if x ≥ s.columns then
        if y < s.lines - 1 then (0, y + 1) else (x - 1, y)
      else (x, y)
    let y' :=
      if s.modes.mDECOM then
        (xy.2 + 2 ^ 32 - max xy.2 s.margin_top) % 2 ^ 32
      else xy.2
    some ("\x1b[" ++ (if priv then "?" else "") ++ toString (y' + 1) ++ ";"
      ++ toString (xy.1 + 1) ++ "R")
  else none

-- Margins, cursor shape, charsets (screen.c lines 996-1034, 209-235) ---------

/-- `screen_set_margins(top, bottom)` (screen.c lines 996-1012): 1-based,
zeros mean the ends, applied only when the region has at least two rows;
the cursor then moves home. -/
def screen_set_margins (s : Screen) (top0 bottom0 : Nat) : Screen :=
  let top := if top0 = 0 then 1 else top0
  let bottom := if bottom0 = 0 then s.lines else bottom0
  let top := min s.lines top - 1
  let bottom := min s.lines bottom - 1
  if top < bottom then
    screen_cursor_position { s with margin_top := top, margin_bottom := bottom } 1 1
  else s

/-- `screen_set_cursor(mode, secondary)` (screen.c lines 1014-1034): only
the DECSCUSR case (secondary = ' ') changes state. -/
def screen_set_cursor (s : Screen) (mode secondary : Nat) : Screen :=
  if secondary = 32 then
    let blink : Bool := if mode > 0 then decide (mode % 2 = 1) else false
    let shape : Nat :=
      if mode = 0 then 0
      else if mode < 3 then 1
      else if mode < 5 then 2
      else if mode < 7 then 3
      else 0
    if shape ≠ s.cursor.shape ∨ blink ≠ s.cursor.blink then
      { s with
        cursor := { s.cursor with shape := shape, blink := blink },
        cursor_changed := true }
    else s
  else s

/-- `screen_change_charset` (screen.c lines 209-217). -/
def screen_change_charset (s : Screen) (which : Nat) : Screen :=
  if which = 0 then { s with g_charset := s.g0_charset }
  else if which = 1 then { s with g_charset := s.g1_charset }
  else s

/-- `screen_designate_charset` (screen.c lines 219-235): rebind g0 or g1;
if the active pointer was the one being rebound, move it along. -/
def screen_designate_charset (s : Screen) (which as : Nat) : Screen :=
  if which = 0 then
    let change_g := s.g_charset = s.g0_charset
    let s1 := { s with g0_charset := translation_table as }
    if change_g then { s1 with g_charset := s1.g0_charset } else s1
  else if which = 1 then
    let change_g := s.g_charset = s.g1_charset
    let s1 := { s with g1_charset := translation_table as }
    if change_g then { s1 with g_charset := s1.g1_charset } else s1
  else s

/-- `screen_use_latin1(on)` (screen.c lines 914-918); the `use_utf8`
callback has no screen-state effect. -/
def screen_use_latin1 (s : Screen) (enabled : Bool) : Screen :=
  { s with use_latin1 := enabled, utf8_state := 0, utf8_codepoint := 0 }

-- Alignment and reset (screen.c lines 293-312, 83-103) -----------------------

/-- `screen_align` (screen.c lines 293-298): reset margins to the full
screen, home the cursor, fill with 'E'. -/
def screen_align (s : Screen) : Screen :=
  let s1 := { s with margin_top := 0, margin_bottom := s.lines - 1 }
  let s2 := screen_cursor_position s1 1 1
  setActiveLinebuf s2 (fun lb => linebuf_clear lb 69)

/-- `screen_alignment_display` (screen.c lines 304-312), the DECALN
handler: home the cursor, then set `margin_top = 0` and — exactly as the C
code does — `margin_bottom = columns - 1`, then fill every cell of the
active buffer with 'E' (preserving attributes, via `line_clear_text`). -/
def screen_alignment_display (s : Screen) : Screen :=
  let s1 := screen_cursor_position s 1 1
  let s2 := { s1 with margin_top := 0, margin_bottom := s1.columns - 1 }
  setActiveLinebuf s2 (fun lb =>
    { lb with rows := fun y =>
        if y < lb.ynum then line_clear_text (lb.rows y) 0 lb.xnum 69
        else lb.rows y })

/-- `screen_reset` (screen.c lines 83-103) restricted to the modelled
state (the color-profile overrides and the dynamic-color callbacks are
outside the model). -/
def screen_reset (s : Screen) : Screen :=
  let s := if ¬s.linebuf_is_main then screen_toggle_screen_buffer s else s
  let s := setActiveLinebuf s (fun lb => linebuf_clear lb BLANK_CHAR)
  let s := { s with modes := empty_modes }
  let s := reset_charsets s
  let s := { s with
    margin_top := 0, margin_bottom := s.lines - 1,
    main_tabstops := init_tabstops s.columns,
    alt_tabstops := init_tabstops s.columns,
    cursor := cursor_reset s.cursor,
    cursor_changed := true, is_dirty := true }
  screen_cursor_position s 1 1

/-- Drawing a whole string: the `draw` method (screen.c lines 1079-1088)
feeds the codepoints to `screen_draw` one by one. -/
def drawMany (s : Screen) (cs : List Nat) : Screen :=
  cs.foldl screen_draw s

-- The command surface -------------------------------------------------------

/-- The mutating command surface of the screen (the methods screen.c
exposes to the parser and the Python layer), used to quantify over "any
operation".  `resize` and `change_scrollback_size` are not included: their
rewrap code (linebuf.c / historybuf.c) is not under src/. -/
inductive Op where
  | draw (ch : Nat)
  | sgr (params : List Nat)
  | setMode (mode : Nat)
  | resetMode (mode : Nat)
  | toggleAltScreen
  | backspace
  | tab
  | backtab (n : Nat)
  | clearTabStop (how : Nat)
  | setTabStop
  | cursorBack (n : Nat) (dir : Int)
  | cursorForward (n : Nat)
  | cursorUp (n : Nat) (cr : Bool) (dir : Int)
  | cursorUp1 (n : Nat)
  | cursorDown (n : Nat)
  | cursorDown1 (n : Nat)
  | cursorToColumn (n : Nat)
  | cursorToLine (n : Nat)
  | cursorPosition (line col : Nat)
  | index
  | scroll (n : Nat)
  | reverseIndex
  | reverseScroll (n : Nat)
  | carriageReturn
  | linefeed
  | saveCursor
  | restoreCursor
  | eraseInLine (how : Nat) (priv : Bool)
  | eraseInDisplay (how : Nat) (priv : Bool)
  | insertLines (n : Nat)
  | deleteLines (n : Nat)
  | insertCharacters (n : Nat)
  | deleteCharacters (n : Nat)
  | eraseCharacters (n : Nat)
  | setMargins (top bottom : Nat)
  | setCursorShape (mode secondary : Nat)
  | alignmentDisplay
  | align
  | useLatin1 (b : Bool)
  | designateCharset (which as : Nat)
  | changeCharset (which : Nat)
  | reset

/-- Dispatch of an operation to the corresponding screen.c function. -/
def applyOp (op : Op) (s : Screen) : Screen :=
  match op with
  | .draw ch => screen_draw s ch
  | .sgr params => screen_select_graphic_rendition s params
  | .setMode mode => screen_set_mode s mode
  | .resetMode mode => screen_reset_mode s mode
  | .toggleAltScreen => screen_toggle_screen_buffer s
  | .backspace => screen_backspace s
  | .tab => screen_tab s
  | .backtab n => screen_backtab s n
  | .clearTabStop how => screen_clear_tab_stop s how
  | .setTabStop => screen_set_tab_stop s
  | .cursorBack n dir => screen_cursor_back s n dir
  | .cursorForward n => screen_cursor_forward s n
  | .cursorUp n cr dir => screen_cursor_up s n cr dir
  | .cursorUp1 n => screen_cursor_up1 s n
  | .cursorDown n => screen_cursor_down s n
  | .cursorDown1 n => screen_cursor_down1 s n
  | .cursorToColumn n => screen_cursor_to_column s n
  | .cursorToLine n => screen_cursor_to_line s n
  | .cursorPosition line col => screen_cursor_position s line col
  | .index => screen_index s
  | .scroll n => screen_scroll s n
  | .reverseIndex => screen_reverse_index s
  | .reverseScroll n => screen_reverse_scroll s n
  | .carriageReturn => screen_carriage_return s
  | .linefeed => screen_linefeed s
  | .saveCursor => screen_save_cursor s
  | .restoreCursor => screen_restore_cursor s
  | .eraseInLine how priv => screen_erase_in_line s how priv
  | .eraseInDisplay how priv => screen_erase_in_display s how priv
  | .insertLines n => screen_insert_lines s n
  | .deleteLines n => screen_delete_lines s n
  | .insertCharacters n => screen_insert_characters s n
  | .deleteCharacters n => screen_delete_characters s n
  | .eraseCharacters n => screen_erase_characters s n
  | .setMargins top bottom => screen_set_margins s top bottom
  | .setCursorShape mode secondary => screen_set_cursor s mode secondary
  | .alignmentDisplay => screen_alignment_display s
  | .align => screen_align s
  | .useLatin1 b => screen_use_latin1 s b
  | .designateCharset which as => screen_designate_charset s which as
  | .changeCharset which => screen_change_charset s which
  | .reset => screen_reset s

/-- The operations of the surface that (possibly) perform `INDEX_UP`:
`index`, `scroll`, `linefeed`, and `draw` (which wraps through
`linefeed`). -/
def Op.performsIndex : Op → Bool
  | .index => true
  | .scroll _ => true
  | .linefeed => true
  | .draw _ => true
  | _ => false

-- Concrete scenario states --------------------------------------------------

/-- Spec scenario 1: a fresh 4x4 screen, DECAWM on (the default), after
drawing "ABCDE". -/
def wrapDemo : Screen := drawMany (screen_create 4 4 0) [65, 66, 67, 68, 69]

/-- Spec scenario 2: the same with DECAWM off. -/
def nowrapDemo : Screen :=
  drawMany (screen_reset_mode (screen_create 4 4 0) DECAWM) [65, 66, 67, 68, 69]

/-- A 4x4 screen with margins 2..4 (1-based), DECOM on, cursor on absolute
row 2 (row 1 of the scrolling region). -/
def dsrDemo : Screen :=
  screen_cursor_down
    (screen_set_mode (screen_set_margins (screen_create 4 4 0) 2 4) DECOM) 1

/-- DECALN applied to a fresh 3-line, 5-column screen. -/
def alignDemo : Screen := screen_alignment_display (screen_create 3 5 0)

/-- A 4x4 screen with 'A' at the origin, cursor back at the origin, and
margins 2..3 (1-based), so the cursor row 0 lies above the scrolling
region. -/
def eraseDemo : Screen :=
  screen_set_margins
    (screen_cursor_back (screen_draw (screen_create 4 4 0) 65) 1 (-1)) 2 3

/-- A fresh 4x4 screen with the cursor moved to row 2: the state whose
cursor a savepoint should capture. -/
def savedDemo : Screen := screen_cursor_down (screen_create 4 4 0) 2

/-- `savedDemo` after `save_cursor`, then moving home and pushing ten more
savepoints: the ring (depth `SAVEPOINTS_SZ` = 10) silently drops the
oldest entry — the one saved at row 2. -/
def overflowDemo : Screen :=
  screen_save_cursor^[10]
    (screen_cursor_position (screen_save_cursor savedDemo) 1 1)

-- The drawing invariant used for the auto-wrap claim ------------------------

/-- A codepoint that `screen_draw` treats as a plain width-1 glyph. -/
def plainChar (ch : Nat) : Prop :=
  is_ignored_char ch = false ∧ safe_wcwidth ch = 1

/-- The state of a fresh screen after drawing the first `k` codepoints of
`cs` (all plain width-1), when the cursor sits at column `x` of row `q`:
margins and modes are still the defaults, rows `1..q` carry the
`continued` flag, and cell `(j, i)` holds codepoint number `j*cols + i`
of `cs` (blank beyond `k`).  `k = q * cols + x` with `x = 0` only at
`k = 0` and `x = cols` transiently after a row has been filled. -/
def DrawInv (cols lines : Nat) (cs : List Nat) (k q x : Nat) (s : Screen) : Prop :=
  s.columns = cols ∧ s.lines = lines ∧ s.linebuf_is_main = true ∧
  s.margin_top = 0 ∧ s.margin_bottom = lines - 1 ∧
  s.modes.mDECAWM = true ∧ s.modes.mDECOM = false ∧ s.modes.mIRM = false ∧
  s.cursor.x = x ∧ s.cursor.y = q ∧
  (∀ j, continuedAt s j = decide (1 ≤ j ∧ j ≤ q)) ∧
  (∀ j i, i < cols →
    charAt s j i = if j * cols + i < k then cs.getD (j * cols + i) 0 else 0)

-- ===========================================================================
-- Theorems
-- ===========================================================================

-- Frame lemmas for the active-buffer combinators.

@[simp] theorem activeLinebuf_setActiveLinebuf (s : Screen) (f : LineBuf → LineBuf) :
    activeLinebuf (setActiveLinebuf s f) = f (activeLinebuf s) := by
  cases h : s.linebuf_is_main <;> simp [setActiveLinebuf, activeLinebuf, h]

@[simp] theorem setActiveLinebuf_cursor (s : Screen) (f : LineBuf → LineBuf) :
    (setActiveLinebuf s f).cursor = s.cursor := by
  cases h : s.linebuf_is_main <;> simp [setActiveLinebuf, h]

@[simp] theorem setActiveLinebuf_modes (s : Screen) (f : LineBuf → LineBuf) :
    (setActiveLinebuf s f).modes = s.modes := by
  cases h : s.linebuf_is_main <;> simp [setActiveLinebuf, h]

@[simp] theorem setActiveLinebuf_columns (s : Screen) (f : LineBuf → LineBuf) :
    (setActiveLinebuf s f).columns = s.columns := by
  cases h : s.linebuf_is_main <;> simp [setActiveLinebuf, h]

@[simp] theorem setActiveLinebuf_lines (s : Screen) (f : LineBuf → LineBuf) :
    (setActiveLinebuf s f).lines = s.lines := by
  cases h : s.linebuf_is_main <;> simp [setActiveLinebuf, h]

@[simp] theorem setActiveLinebuf_margin_top (s : Screen) (f : LineBuf → LineBuf) :
    (setActiveLinebuf s f).margin_top = s.margin_top := by
  cases h : s.linebuf_is_main <;> simp [setActiveLinebuf, h]

@[simp] theorem setActiveLinebuf_margin_bottom (s : Screen) (f : LineBuf → LineBuf) :
    (setActiveLinebuf s f).margin_bottom = s.margin_bottom := by
  cases h : s.linebuf_is_main <;> simp [setActiveLinebuf, h]

@[simp] theorem setActiveLinebuf_is_main (s : Screen) (f : LineBuf → LineBuf) :
    (setActiveLinebuf s f).linebuf_is_main = s.linebuf_is_main := by
  cases h : s.linebuf_is_main <;> simp [setActiveLinebuf, h]

@[simp] theorem setActiveLinebuf_historybuf (s : Screen) (f : LineBuf → LineBuf) :
    (setActiveLinebuf s f).historybuf = s.historybuf := by
  cases h : s.linebuf_is_main <;> simp [setActiveLinebuf, h]

@[simp] theorem setActiveLinebuf_hlac (s : Screen) (f : LineBuf → LineBuf) :
    (setActiveLinebuf s f).history_line_added_count = s.history_line_added_count := by
  cases h : s.linebuf_is_main <;> simp [setActiveLinebuf, h]

@[simp] theorem setActiveTabstops_historybuf (s : Screen) (f : (Nat → Bool) → (Nat → Bool)) :
    (setActiveTabstops s f).historybuf = s.historybuf := by
  cases h : s.tabstops_is_main <;> simp [setActiveTabstops, h]

@[simp] theorem setActiveTabstops_hlac (s : Screen) (f : (Nat → Bool) → (Nat → Bool)) :
    (setActiveTabstops s f).history_line_added_count = s.history_line_added_count := by
  cases h : s.tabstops_is_main <;> simp [setActiveTabstops, h]

@[simp] theorem setActiveSavepoints_historybuf (s : Screen) (l : List Savepoint) :
    (setActiveSavepoints s l).historybuf = s.historybuf := by
  cases h : s.linebuf_is_main <;> simp [setActiveSavepoints, h]

@[simp] theorem setActiveSavepoints_hlac (s : Screen) (l : List Savepoint) :
    (setActiveSavepoints s l).history_line_added_count = s.history_line_added_count := by
  cases h : s.linebuf_is_main <;> simp [setActiveSavepoints, h]

-- ---------------------------------------------------------------------------
-- C5: DECALN (alignment_display)
-- ---------------------------------------------------------------------------

/-- C5: on a 3-line, 5-column screen, `screen_alignment_display` fills every
cell with 'E' and homes the cursor, but sets `margin_bottom` to
`columns - 1 = 4` instead of `lines - 1 = 2`: the C code's
`self->margin_bottom = self->columns - 1` (screen.c line 307) contradicts
the claim (and the VT DECALN behavior of resetting the scrolling region to
the full screen). -/
theorem c5_decaln_margin_bug :
    alignDemo.margin_top = 0 ∧
    alignDemo.margin_bottom = 4 ∧
    (screen_create 3 5 0).lines - 1 = 2 ∧
    alignDemo.cursor.x = 0 ∧ alignDemo.cursor.y = 0 ∧
    (∀ y < 3, ∀ x < 5, charAt alignDemo y x = 69) := by
  decide

-- ---------------------------------------------------------------------------
-- C6: DSR 6 cursor position report
-- ---------------------------------------------------------------------------

/-- C6: with DECOM on, `margin_top = 1` and the cursor on absolute row 2
(so the claim's "y reduced by margin_top" requires the report
"\x1b[?2;1R"), the code answers "\x1b[?1;1R": `report_device_status`
subtracts `MAX(y, margin_top)` (screen.c line 961) instead of
`margin_top`, so with DECOM the reported row is always 1 whenever
`y ≥ margin_top`. -/
theorem c6_dsr_decom_bug :
    dsrDemo.modes.mDECOM = true ∧ dsrDemo.margin_top = 1 ∧
    dsrDemo.cursor.y = 2 ∧ dsrDemo.cursor.x = 0 ∧
    report_device_status dsrDemo 6 true = some "\x1b[?1;1R" ∧
    "\x1b[?1;1R" ≠ "\x1b[?2;1R" := by
  decide

-- ---------------------------------------------------------------------------
-- C7: SGR truecolor
-- ---------------------------------------------------------------------------

/-- C7: `select_graphic_rendition` on parameters beginning
`38, 2, r, g, b` stores `(r<<24)|(g<<16)|(b<<8)|2` (each component masked
to 8 bits) as the cursor foreground and continues with the remaining
parameters; in particular after `[38;2;10;20;30]` a drawn cell has
foreground `(10<<24)|(20<<16)|(30<<8)|2`. -/
theorem c7_sgr_truecolor (r g b : Nat) (rest : List Nat) (c : Cursor) :
    select_graphic_rendition (38 :: 2 :: r :: g :: b :: rest) c
        = sgr_loop rest { c with fg := rgb_color r g b }
      ∧ rgb_color r g b = (r % 256) * 2 ^ 24 + (g % 256) * 2 ^ 16 + (b % 256) * 2 ^ 8 + 2
      ∧ fgAt (screen_draw (screen_select_graphic_rendition (screen_create 4 4 0)
          [38, 2, 10, 20, 30]) 65) 0 0
        = 10 * 2 ^ 24 + 20 * 2 ^ 16 + 30 * 2 ^ 8 + 2 := by
  exact ⟨rfl, rfl, by decide⟩

-- ---------------------------------------------------------------------------
-- C10: combining mark with no preceding cell
-- ---------------------------------------------------------------------------

/-- C10: a combining mark drawn at x = 0, y = 0 is silently discarded:
with no previous column and no previous row there is nothing to attach it
to, and `screen_draw` returns the state unchanged (cells, cursor and
dirty flags included). -/
theorem c10_combining_at_origin (s : Screen) (ch : Nat)
    (hx : s.cursor.x = 0) (hy : s.cursor.y = 0)
    (hig : is_ignored_char ch = false)
    (hcomb : is_combining_char ch = true) :
    screen_draw s ch = s := by
  have hw : safe_wcwidth ch = 0 := by simp [safe_wcwidth, hcomb]
  simp [screen_draw, hig, hx, hy, charset_lookup, hw, hcomb]

/-- C10 witness: U+0300 (combining grave accent, width 0) drawn at the
origin of a fresh 4x4 screen leaves the screen unchanged. -/
theorem c10_combining_at_origin_witness :
    (screen_create 4 4 0).cursor.x = 0 ∧ (screen_create 4 4 0).cursor.y = 0 ∧
    is_ignored_char 768 = false ∧ is_combining_char 768 = true ∧
    screen_draw (screen_create 4 4 0) 768 = screen_create 4 4 0 :=
  ⟨by decide, by decide, by decide, by decide,
    c10_combining_at_origin (screen_create 4 4 0) 768 (by decide) (by decide)
      (by decide) (by decide)⟩

-- ---------------------------------------------------------------------------
-- Counterexamples for the corrected claims
-- ---------------------------------------------------------------------------

/-- C1 counterexample: on the 4x4 DECAWM-on screen after drawing "ABCDE",
the `continued` flag is false on row 0 and true on row 1 — the code
(screen.c line 262) marks the wrapped-onto row, not the row that was
filled, so the claim's flag assignment is inverted. -/
theorem c1_counterexample :
    charAt wrapDemo 0 0 = 65 ∧ charAt wrapDemo 0 3 = 68 ∧
    charAt wrapDemo 1 0 = 69 ∧
    continuedAt wrapDemo 0 = false ∧ continuedAt wrapDemo 1 = true := by
  decide

/-- C2 counterexample: on a fresh 2x2 main screen (no bottom margin) with
the cursor on row 0 ≠ bottom, `screen_index` merely moves the cursor down
and adds nothing to the history, so `history_line_added_count` does not
increase. -/
theorem c2_counterexample :
    (screen_create 2 2 5).linebuf_is_main = true ∧
    (screen_create 2 2 5).margin_bottom = (screen_create 2 2 5).lines - 1 ∧
    (screen_index (screen_create 2 2 5)).history_line_added_count =
      (screen_create 2 2 5).history_line_added_count ∧
    (screen_index (screen_create 2 2 5)).historybuf.data = [] :=
  ⟨by decide, by decide, rfl, rfl⟩

/-- C3 counterexample: save at row 2, move home, then push ten more
savepoints — none of which pops the first one — and restore: the depth-10
ring has silently dropped the savepoint taken at row 2, and the restored
cursor row is 0, not 2. -/
theorem c3_counterexample :
    savedDemo.cursor.y = 2 ∧
    (screen_restore_cursor overflowDemo).cursor.y = 0 := by
  decide

/-- C4 counterexample: on the 4x4 DECAWM-off screen after drawing "ABCDE",
row 0 reads "ABCE" as the claim says, but the final `cursor.x` is 4
(`columns`), not 3: screen.c line 273 advances the cursor after the
overprint. -/
theorem c4_counterexample :
    charAt nowrapDemo 0 0 = 65 ∧ charAt nowrapDemo 0 1 = 66 ∧
    charAt nowrapDemo 0 2 = 67 ∧ charAt nowrapDemo 0 3 = 69 ∧
    nowrapDemo.cursor.x = 4 ∧ nowrapDemo.cursor.x ≠ 3 := by
  decide

/-- C8 counterexample: with margins 1..2 (0-based) and the cursor on row 0
above the scrolling region, `screen_erase_characters` still blanks the
cell under the cursor — screen.c lines 900-908 have no margin check, so
the grid is not left unchanged. -/
theorem c8_counterexample :
    eraseDemo.cursor.y = 0 ∧ eraseDemo.margin_top = 1 ∧
    eraseDemo.margin_bottom = 2 ∧
    charAt eraseDemo 0 0 = 65 ∧
    charAt (screen_erase_characters eraseDemo 1) 0 0 = BLANK_CHAR ∧
    BLANK_CHAR ≠ 65 := by
  decide

-- ---------------------------------------------------------------------------
-- C8 (amended): the margin guard of the editing operations
-- ---------------------------------------------------------------------------

/-- C8 as amended: when the cursor row lies outside the scrolling margins,
`insert_lines`, `delete_lines`, `insert_characters` and
`delete_characters` leave the screen (grid included) unchanged;
`erase_characters` is not margin-guarded (see the counterexample). -/
theorem c8_margin_guard (s : Screen) (n : Nat)
    (h : s.cursor.y < s.margin_top ∨ s.margin_bottom < s.cursor.y) :
    screen_insert_lines s n = s ∧ screen_delete_lines s n = s ∧
    screen_insert_characters s n = s ∧ screen_delete_characters s n = s := by
  have hg : ¬(s.margin_top ≤ s.cursor.y ∧ s.cursor.y ≤ s.margin_bottom) := by
    omega
  refine ⟨?_, ?_, ?_, ?_⟩ <;>
    simp [screen_insert_lines, screen_delete_lines,
      screen_insert_characters, screen_delete_characters, hg]

/-- C8 witness: on `eraseDemo` (cursor row 0, margins 1..2) the four
guarded operations are no-ops. -/
theorem c8_margin_guard_witness :
    (eraseDemo.cursor.y < eraseDemo.margin_top ∨
      eraseDemo.margin_bottom < eraseDemo.cursor.y) ∧
    (screen_insert_lines eraseDemo 1 = eraseDemo ∧
     screen_delete_lines eraseDemo 1 = eraseDemo ∧
     screen_insert_characters eraseDemo 1 = eraseDemo ∧
     screen_delete_characters eraseDemo 1 = eraseDemo) :=
  ⟨by decide, c8_margin_guard eraseDemo 1 (by decide)⟩

-- ---------------------------------------------------------------------------
-- C2 (amended): index at the bottom margin adds to the history
-- ---------------------------------------------------------------------------

/-- C2 as amended: when the main buffer is active, the scrolling-region
bottom is `lines - 1` *and the cursor sits on the bottom margin*,
`screen_index` increments `history_line_added_count` by exactly 1 and the
line displaced off the top of the region becomes the newest history
line.  (Without the cursor condition `index` merely moves the cursor
down — see the counterexample.) -/
theorem c2_index_adds_history (s : Screen)
    (hmain : s.linebuf_is_main = true)
    (hbot : s.margin_bottom = s.lines - 1)
    (hy : s.cursor.y = s.margin_bottom)
    (htb : s.margin_top ≤ s.margin_bottom)
    (hcap : 0 < s.historybuf.ynum) :
    (screen_index s).history_line_added_count = s.history_line_added_count + 1 ∧
    (screen_index s).historybuf.data.head? =
      some ((activeLinebuf s).rows s.margin_top) := by
  rw [screen_index, if_pos hy]
  unfold index_up
  simp only [setActiveLinebuf_is_main, setActiveLinebuf_lines,
    setActiveLinebuf_historybuf, setActiveLinebuf_hlac,
    activeLinebuf_setActiveLinebuf, hmain, hbot]
  rw [if_pos (⟨trivial, trivial⟩ : True ∧ True)]
  have hrow : (linebuf_index (activeLinebuf s) s.margin_top (s.lines - 1)).rows
      (s.lines - 1) = (activeLinebuf s).rows s.margin_top := by
    rw [linebuf_index]
    simp only
    rw [if_neg (by omega)]
    simp
  simp only [setActiveLinebuf_historybuf, setActiveLinebuf_hlac, hrow]
  refine ⟨by trivial, ?_⟩
  obtain ⟨m, hm⟩ : ∃ m, s.historybuf.ynum = m + 1 := ⟨s.historybuf.ynum - 1, by omega⟩
  simp [historybuf_add_line, hm]

/-- C2 witness: on a 2x2 screen with 5 lines of scrollback and the cursor
moved to the bottom row, `index` adds exactly one history line. -/
theorem c2_index_adds_history_witness :
    ((screen_cursor_down (screen_create 2 2 5) 1).linebuf_is_main = true ∧
     (screen_cursor_down (screen_create 2 2 5) 1).margin_bottom =
       (screen_cursor_down (screen_create 2 2 5) 1).lines - 1 ∧
     (screen_cursor_down (screen_create 2 2 5) 1).cursor.y =
       (screen_cursor_down (screen_create 2 2 5) 1).margin_bottom) ∧
    (screen_index (screen_cursor_down (screen_create 2 2 5) 1)).history_line_added_count
      = (screen_cursor_down (screen_create 2 2 5) 1).history_line_added_count + 1 :=
  ⟨⟨by decide, by decide, by decide⟩,
    (c2_index_adds_history (screen_cursor_down (screen_create 2 2 5) 1)
      (by decide) (by decide) (by decide) (by decide) (by decide)).1⟩

-- Projections through `if` on screens (used to dispose of the
-- `cursor_changed` marking without case splits).

@[simp] theorem screen_ite_cursor (P : Prop) [Decidable P] (a b : Screen) :
    (if P then a else b).cursor = if P then a.cursor else b.cursor := by
  split <;> rfl

@[simp] theorem screen_ite_historybuf (P : Prop) [Decidable P] (a b : Screen) :
    (if P then a else b).historybuf = if P then a.historybuf else b.historybuf := by
  split <;> rfl

@[simp] theorem screen_ite_hlac (P : Prop) [Decidable P] (a b : Screen) :
    (if P then a else b).history_line_added_count =
      if P then a.history_line_added_count else b.history_line_added_count := by
  split <;> rfl

@[simp] theorem screen_ite_columns (P : Prop) [Decidable P] (a b : Screen) :
    (if P then a else b).columns = if P then a.columns else b.columns := by
  split <;> rfl

@[simp] theorem screen_ite_lines (P : Prop) [Decidable P] (a b : Screen) :
    (if P then a else b).lines = if P then a.lines else b.lines := by
  split <;> rfl

@[simp] theorem screen_ite_margin_top (P : Prop) [Decidable P] (a b : Screen) :
    (if P then a else b).margin_top = if P then a.margin_top else b.margin_top := by
  split <;> rfl

@[simp] theorem screen_ite_margin_bottom (P : Prop) [Decidable P] (a b : Screen) :
    (if P then a else b).margin_bottom =
      if P then a.margin_bottom else b.margin_bottom := by
  split <;> rfl

@[simp] theorem screen_ite_is_main (P : Prop) [Decidable P] (a b : Screen) :
    (if P then a else b).linebuf_is_main =
      if P then a.linebuf_is_main else b.linebuf_is_main := by
  split <;> rfl

@[simp] theorem screen_ite_modes (P : Prop) [Decidable P] (a b : Screen) :
    (if P then a else b).modes = if P then a.modes else b.modes := by
  split <;> rfl

@[simp] theorem screen_ite_charAt (P : Prop) [Decidable P] (a b : Screen) (y x : Nat) :
    charAt (if P then a else b) y x = if P then charAt a y x else charAt b y x := by
  split <;> rfl

@[simp] theorem screen_ite_continuedAt (P : Prop) [Decidable P] (a b : Screen) (y : Nat) :
    continuedAt (if P then a else b) y =
      if P then continuedAt a y else continuedAt b y := by
  split <;> rfl

@[simp] theorem cursor_ite_x (P : Prop) [Decidable P] (a b : Cursor) :
    (if P then a else b).x = if P then a.x else b.x := by
  split <;> rfl

@[simp] theorem cursor_ite_y (P : Prop) [Decidable P] (a b : Cursor) :
    (if P then a else b).y = if P then a.y else b.y := by
  split <;> rfl

-- ---------------------------------------------------------------------------
-- C4 (amended): overprint at the right margin with DECAWM off
-- ---------------------------------------------------------------------------

/-- C4 as amended: with DECAWM off, drawing a codepoint of width w > 0 when
fewer than w columns remain first moves the cursor to `x = columns - w`,
overprints in place, and then advances the cursor past the write, leaving
`cursor.x = columns` (not `columns - 1`); in particular on a 4x4 screen
drawing "ABCDE" leaves row 0 = "ABCE" and the final `cursor.x = 4`. -/
theorem c4_overprint :
    (∀ (s : Screen) (ch : Nat),
      is_ignored_char ch = false →
      s.modes.mDECAWM = false →
      0 < safe_wcwidth ch →
      safe_wcwidth ch ≤ s.columns →
      s.columns - s.cursor.x < safe_wcwidth ch →
      (screen_draw s ch).cursor.x = s.columns ∧
      (screen_draw s ch).cursor.y = s.cursor.y ∧
      charAt (screen_draw s ch) s.cursor.y (s.columns - safe_wcwidth ch) = ch) ∧
    (charAt nowrapDemo 0 0 = 65 ∧ charAt nowrapDemo 0 1 = 66 ∧
     charAt nowrapDemo 0 2 = 67 ∧ charAt nowrapDemo 0 3 = 69 ∧
     nowrapDemo.cursor.x = 4) := by
  constructor
  · intro s ch hig hawm hpos hle hlt
    have h2 : safe_wcwidth ch ≤ 2 := by
      unfold safe_wcwidth
      split
      · omega
      · split <;> omega
    rcases (by omega : safe_wcwidth ch = 1 ∨ safe_wcwidth ch = 2) with hw | hw <;>
      rw [hw] at hle hlt <;>
      by_cases hirm : s.modes.mIRM = true <;>
      by_cases hmain : s.linebuf_is_main = true <;>
      refine ⟨?_, ?_, ?_⟩
    all_goals simp [screen_draw, hig, hawm, charset_lookup, hw, hlt, hirm, hmain,
      activeLinebuf, setActiveLinebuf]
    all_goals try simp [charAt, activeLinebuf, setActiveLinebuf, hmain,
      linebuf_mod_row, linebuf_set_row, line_set_char, row_set_cell,
      line_right_shift, cellFromCursor]
    all_goals try omega
  · decide

/-- C4 witness: after drawing "ABCD" on the 4x4 DECAWM-off screen the
cursor has no room left; drawing 'E' overprints the last column and
leaves the cursor at `columns`. -/
theorem c4_overprint_witness :
    (is_ignored_char 69 = false ∧
     (drawMany (screen_reset_mode (screen_create 4 4 0) DECAWM)
        [65, 66, 67, 68]).modes.mDECAWM = false ∧
     0 < safe_wcwidth 69 ∧
     safe_wcwidth 69 ≤
       (drawMany (screen_reset_mode (screen_create 4 4 0) DECAWM)
          [65, 66, 67, 68]).columns ∧
     (drawMany (screen_reset_mode (screen_create 4 4 0) DECAWM)
          [65, 66, 67, 68]).columns -
        (drawMany (screen_reset_mode (screen_create 4 4 0) DECAWM)
          [65, 66, 67, 68]).cursor.x < safe_wcwidth 69) ∧
    ((screen_draw (drawMany (screen_reset_mode (screen_create 4 4 0) DECAWM)
          [65, 66, 67, 68]) 69).cursor.x =
       (drawMany (screen_reset_mode (screen_create 4 4 0) DECAWM)
          [65, 66, 67, 68]).columns ∧
     (screen_draw (drawMany (screen_reset_mode (screen_create 4 4 0) DECAWM)
          [65, 66, 67, 68]) 69).cursor.y =
       (drawMany (screen_reset_mode (screen_create 4 4 0) DECAWM)
          [65, 66, 67, 68]).cursor.y ∧
     charAt (screen_draw (drawMany (screen_reset_mode (screen_create 4 4 0) DECAWM)
          [65, 66, 67, 68]) 69)
       (drawMany (screen_reset_mode (screen_create 4 4 0) DECAWM)
          [65, 66, 67, 68]).cursor.y
       ((drawMany (screen_reset_mode (screen_create 4 4 0) DECAWM)
          [65, 66, 67, 68]).columns - safe_wcwidth 69) = 69) :=
  ⟨⟨by decide, by decide, by decide, by decide, by decide⟩,
    c4_overprint.1
      (drawMany (screen_reset_mode (screen_create 4 4 0) DECAWM) [65, 66, 67, 68])
      69 (by decide) (by decide) (by decide) (by decide) (by decide)⟩

-- Equations for `apply_mode_core` at the three savepoint modes.

theorem apply_mode_core_DECOM_eq (s : Screen) (val : Bool) :
    apply_mode_core s DECOM val =
      screen_cursor_position { s with modes := { s.modes with mDECOM := val } } 1 1 := by
  simp [apply_mode_core, DECOM, LNM, IRM, DECARM, BRACKETED_PASTE,
    EXTENDED_KEYBOARD, FOCUS_TRACKING, MOUSE_BUTTON_TRACKING,
    MOUSE_MOTION_TRACKING, MOUSE_MOVE_TRACKING, MOUSE_UTF8_MODE,
    MOUSE_SGR_MODE, MOUSE_URXVT_MODE, DECSCLM, DECNRCM, DECCKM, DECTCEM,
    DECSCNM]

theorem apply_mode_core_DECAWM_eq (s : Screen) (val : Bool) :
    apply_mode_core s DECAWM val =
      { s with modes := { s.modes with mDECAWM := val } } := by
  simp [apply_mode_core, DECAWM, LNM, IRM, DECARM, BRACKETED_PASTE,
    EXTENDED_KEYBOARD, FOCUS_TRACKING, MOUSE_BUTTON_TRACKING,
    MOUSE_MOTION_TRACKING, MOUSE_MOVE_TRACKING, MOUSE_UTF8_MODE,
    MOUSE_SGR_MODE, MOUSE_URXVT_MODE, DECSCLM, DECNRCM, DECCKM, DECTCEM,
    DECSCNM, DECOM]

theorem apply_mode_core_DECSCNM_eq (s : Screen) (val : Bool) :
    apply_mode_core s DECSCNM val =
      if s.modes.mDECSCNM ≠ val then
        { s with modes := { s.modes with mDECSCNM := val }, is_dirty := true }
      else s := by
  simp [apply_mode_core, DECSCNM, LNM, IRM, DECARM, BRACKETED_PASTE,
    EXTENDED_KEYBOARD, FOCUS_TRACKING, MOUSE_BUTTON_TRACKING,
    MOUSE_MOTION_TRACKING, MOUSE_MOVE_TRACKING, MOUSE_UTF8_MODE,
    MOUSE_SGR_MODE, MOUSE_URXVT_MODE, DECSCLM, DECNRCM, DECCKM, DECTCEM]

-- ---------------------------------------------------------------------------
-- C3 (amended): cursor save/restore round-trip
-- ---------------------------------------------------------------------------

/-- C3 as amended: a `save_cursor` round-trips through `restore_cursor`
provided the savepoint is still the newest entry of the active buffer's
stack at restore time (the intervening operations neither popped it nor
pushed `SAVEPOINTS_SZ = 10` or more times over it — see the
counterexample for the overflow case) and the saved cursor lies within
the restore-time clamping bounds (`ensure_bounds`): then the cursor
position, DECOM, DECAWM, DECSCNM and the full charset state all return to
their save-time values. -/
theorem c3_save_restore_roundtrip (s₁ s₂ : Screen)
    (hsp : (activeSavepoints s₂).head? = some (mkSavepoint s₁))
    (hx : s₁.cursor.x < s₂.columns)
    (hy : if s₁.modes.mDECOM = true then
            s₂.margin_top ≤ s₁.cursor.y ∧ s₁.cursor.y ≤ s₂.margin_bottom
          else s₁.cursor.y < s₂.lines) :
    (screen_restore_cursor s₂).cursor.x = s₁.cursor.x ∧
    (screen_restore_cursor s₂).cursor.y = s₁.cursor.y ∧
    (screen_restore_cursor s₂).modes.mDECOM = s₁.modes.mDECOM ∧
    (screen_restore_cursor s₂).modes.mDECAWM = s₁.modes.mDECAWM ∧
    (screen_restore_cursor s₂).modes.mDECSCNM = s₁.modes.mDECSCNM ∧
    (screen_restore_cursor s₂).g0_charset = s₁.g0_charset ∧
    (screen_restore_cursor s₂).g1_charset = s₁.g1_charset ∧
    (screen_restore_cursor s₂).g_charset = s₁.g_charset ∧
    (screen_restore_cursor s₂).utf8_state = s₁.utf8_state ∧
    (screen_restore_cursor s₂).utf8_codepoint = s₁.utf8_codepoint ∧
    (screen_restore_cursor s₂).use_latin1 = s₁.use_latin1 := by
  obtain ⟨rest, hstack⟩ : ∃ rest, activeSavepoints s₂ = mkSavepoint s₁ :: rest := by
    cases h : activeSavepoints s₂ with
    | nil => rw [h] at hsp; simp at hsp
    | cons a l =>
      rw [h] at hsp
      simp only [List.head?_cons, Option.some_inj] at hsp
      exact ⟨l, by rw [hsp]⟩
  unfold screen_restore_cursor
  rw [hstack]
  simp only [savepoints_pop]
  by_cases hmain : s₂.linebuf_is_main = true <;>
    by_cases hdecom : s₁.modes.mDECOM = true <;>
      simp only [hdecom, if_true, if_false, Bool.not_eq_true] at hy ⊢ <;>
      simp [setActiveSavepoints, hmain, apply_mode_core_DECOM_eq,
        apply_mode_core_DECAWM_eq, apply_mode_core_DECSCNM_eq, mkSavepoint,
        screen_cursor_position, screen_ensure_bounds, hdecom] <;>
      split_ifs <;>
      simp_all <;>
      omega

/-- C3 witness: save on a fresh 4x4 screen with the cursor at row 2, then
restore immediately: position, modes and charset state come back. -/
theorem c3_save_restore_roundtrip_witness :
    ((activeSavepoints (screen_save_cursor savedDemo)).head? =
        some (mkSavepoint savedDemo) ∧
     savedDemo.cursor.x < (screen_save_cursor savedDemo).columns ∧
     (if savedDemo.modes.mDECOM = true then
        (screen_save_cursor savedDemo).margin_top ≤ savedDemo.cursor.y ∧
          savedDemo.cursor.y ≤ (screen_save_cursor savedDemo).margin_bottom
      else savedDemo.cursor.y < (screen_save_cursor savedDemo).lines)) ∧
    ((screen_restore_cursor (screen_save_cursor savedDemo)).cursor.x =
        savedDemo.cursor.x ∧
     (screen_restore_cursor (screen_save_cursor savedDemo)).cursor.y =
        savedDemo.cursor.y ∧
     (screen_restore_cursor (screen_save_cursor savedDemo)).modes.mDECOM =
        savedDemo.modes.mDECOM ∧
     (screen_restore_cursor (screen_save_cursor savedDemo)).modes.mDECAWM =
        savedDemo.modes.mDECAWM ∧
     (screen_restore_cursor (screen_save_cursor savedDemo)).modes.mDECSCNM =
        savedDemo.modes.mDECSCNM ∧
     (screen_restore_cursor (screen_save_cursor savedDemo)).g0_charset =
        savedDemo.g0_charset ∧
     (screen_restore_cursor (screen_save_cursor savedDemo)).g1_charset =
        savedDemo.g1_charset ∧
     (screen_restore_cursor (screen_save_cursor savedDemo)).g_charset =
        savedDemo.g_charset ∧
     (screen_restore_cursor (screen_save_cursor savedDemo)).utf8_state =
        savedDemo.utf8_state ∧
     (screen_restore_cursor (screen_save_cursor savedDemo)).utf8_codepoint =
        savedDemo.utf8_codepoint ∧
     (screen_restore_cursor (screen_save_cursor savedDemo)).use_latin1 =
        savedDemo.use_latin1) :=
  ⟨⟨by decide, by decide, by decide⟩,
    c3_save_restore_roundtrip savedDemo (screen_save_cursor savedDemo)
      (by decide) (by decide) (by decide)⟩

-- ---------------------------------------------------------------------------
-- History-frame lemmas: which operations can touch the HistoryBuf
-- ---------------------------------------------------------------------------

@[simp] theorem carriage_return_historybuf (s : Screen) :
    (screen_carriage_return s).historybuf = s.historybuf := by
  simp [screen_carriage_return]

@[simp] theorem carriage_return_hlac (s : Screen) :
    (screen_carriage_return s).history_line_added_count =
      s.history_line_added_count := by
  simp [screen_carriage_return]

@[simp] theorem carriage_return_is_main (s : Screen) :
    (screen_carriage_return s).linebuf_is_main = s.linebuf_is_main := by
  simp [screen_carriage_return]

@[simp] theorem carriage_return_margin_bottom (s : Screen) :
    (screen_carriage_return s).margin_bottom = s.margin_bottom := by
  simp [screen_carriage_return]

@[simp] theorem carriage_return_lines (s : Screen) :
    (screen_carriage_return s).lines = s.lines := by
  simp [screen_carriage_return]

@[simp] theorem ensure_bounds_historybuf (s : Screen) (f : Bool) :
    (screen_ensure_bounds s f).historybuf = s.historybuf := rfl

@[simp] theorem ensure_bounds_hlac (s : Screen) (f : Bool) :
    (screen_ensure_bounds s f).history_line_added_count =
      s.history_line_added_count := rfl

@[simp] theorem cursor_position_historybuf (s : Screen) (l c : Nat) :
    (screen_cursor_position s l c).historybuf = s.historybuf := by
  simp [screen_cursor_position, screen_ensure_bounds]

@[simp] theorem cursor_position_hlac (s : Screen) (l c : Nat) :
    (screen_cursor_position s l c).history_line_added_count =
      s.history_line_added_count := by
  simp [screen_cursor_position, screen_ensure_bounds]

@[simp] theorem cursor_to_line_historybuf (s : Screen) (l : Nat) :
    (screen_cursor_to_line s l).historybuf = s.historybuf := by
  simp [screen_cursor_to_line]

@[simp] theorem cursor_to_line_hlac (s : Screen) (l : Nat) :
    (screen_cursor_to_line s l).history_line_added_count =
      s.history_line_added_count := by
  simp [screen_cursor_to_line]

@[simp] theorem cursor_back_historybuf (s : Screen) (n : Nat) (d : Int) :
    (screen_cursor_back s n d).historybuf = s.historybuf := by
  simp [screen_cursor_back, screen_ensure_bounds]

@[simp] theorem cursor_back_hlac (s : Screen) (n : Nat) (d : Int) :
    (screen_cursor_back s n d).history_line_added_count =
      s.history_line_added_count := by
  simp [screen_cursor_back, screen_ensure_bounds]

@[simp] theorem cursor_up_historybuf (s : Screen) (n : Nat) (cr : Bool) (d : Int) :
    (screen_cursor_up s n cr d).historybuf = s.historybuf := by
  simp [screen_cursor_up, screen_ensure_bounds]

@[simp] theorem cursor_up_hlac (s : Screen) (n : Nat) (cr : Bool) (d : Int) :
    (screen_cursor_up s n cr d).history_line_added_count =
      s.history_line_added_count := by
  simp [screen_cursor_up, screen_ensure_bounds]

@[simp] theorem cursor_up_is_main (s : Screen) (n : Nat) (cr : Bool) (d : Int) :
    (screen_cursor_up s n cr d).linebuf_is_main = s.linebuf_is_main := by
  simp [screen_cursor_up, screen_ensure_bounds]

@[simp] theorem cursor_up_margin_bottom (s : Screen) (n : Nat) (cr : Bool) (d : Int) :
    (screen_cursor_up s n cr d).margin_bottom = s.margin_bottom := by
  simp [screen_cursor_up, screen_ensure_bounds]

@[simp] theorem cursor_up_lines (s : Screen) (n : Nat) (cr : Bool) (d : Int) :
    (screen_cursor_up s n cr d).lines = s.lines := by
  simp [screen_cursor_up, screen_ensure_bounds]

@[simp] theorem cursor_to_column_historybuf (s : Screen) (n : Nat) :
    (screen_cursor_to_column s n).historybuf = s.historybuf := by
  simp [screen_cursor_to_column, screen_ensure_bounds]

@[simp] theorem cursor_to_column_hlac (s : Screen) (n : Nat) :
    (screen_cursor_to_column s n).history_line_added_count =
      s.history_line_added_count := by
  simp [screen_cursor_to_column, screen_ensure_bounds]

@[simp] theorem tab_historybuf (s : Screen) :
    (screen_tab s).historybuf = s.historybuf := by
  simp [screen_tab]

@[simp] theorem tab_hlac (s : Screen) :
    (screen_tab s).history_line_added_count = s.history_line_added_count := by
  simp [screen_tab]

@[simp] theorem backtab_historybuf (s : Screen) (n : Nat) :
    (screen_backtab s n).historybuf = s.historybuf := by
  simp [screen_backtab]

@[simp] theorem backtab_hlac (s : Screen) (n : Nat) :
    (screen_backtab s n).history_line_added_count = s.history_line_added_count := by
  simp [screen_backtab]

@[simp] theorem clear_tab_stop_historybuf (s : Screen) (how : Nat) :
    (screen_clear_tab_stop s how).historybuf = s.historybuf := by
  simp [screen_clear_tab_stop]

@[simp] theorem clear_tab_stop_hlac (s : Screen) (how : Nat) :
    (screen_clear_tab_stop s how).history_line_added_count =
      s.history_line_added_count := by
  simp [screen_clear_tab_stop]

@[simp] theorem set_tab_stop_historybuf (s : Screen) :
    (screen_set_tab_stop s).historybuf = s.historybuf := by
  simp [screen_set_tab_stop]

@[simp] theorem set_tab_stop_hlac (s : Screen) :
    (screen_set_tab_stop s).history_line_added_count =
      s.history_line_added_count := by
  simp [screen_set_tab_stop]

@[simp] theorem backspace_historybuf (s : Screen) :
    (screen_backspace s).historybuf = s.historybuf := by
  simp [screen_backspace]

@[simp] theorem backspace_hlac (s : Screen) :
    (screen_backspace s).history_line_added_count = s.history_line_added_count := by
  simp [screen_backspace]

@[simp] theorem index_down_historybuf (s : Screen) :
    (index_down s).historybuf = s.historybuf := by
  simp [index_down]

@[simp] theorem index_down_hlac (s : Screen) :
    (index_down s).history_line_added_count = s.history_line_added_count := by
  simp [index_down]

@[simp] theorem reverse_index_historybuf (s : Screen) :
    (screen_reverse_index s).historybuf = s.historybuf := by
  unfold screen_reverse_index
  split <;> simp

@[simp] theorem reverse_index_hlac (s : Screen) :
    (screen_reverse_index s).history_line_added_count =
      s.history_line_added_count := by
  unfold screen_reverse_index
  split <;> simp

@[simp] theorem reverse_scroll_historybuf (s : Screen) (n : Nat) :
    (screen_reverse_scroll s n).historybuf = s.historybuf := by
  unfold screen_reverse_scroll
  generalize min s.lines n = k
  induction k generalizing s with
  | zero => rfl
  | succ k ih => rw [Function.iterate_succ_apply, ih, index_down_historybuf]

@[simp] theorem reverse_scroll_hlac (s : Screen) (n : Nat) :
    (screen_reverse_scroll s n).history_line_added_count =
      s.history_line_added_count := by
  unfold screen_reverse_scroll
  generalize min s.lines n = k
  induction k generalizing s with
  | zero => rfl
  | succ k ih => rw [Function.iterate_succ_apply, ih, index_down_hlac]

@[simp] theorem erase_in_line_historybuf (s : Screen) (how : Nat) (p : Bool) :
    (screen_erase_in_line s how p).historybuf = s.historybuf := by
  simp [screen_erase_in_line]

@[simp] theorem erase_in_line_hlac (s : Screen) (how : Nat) (p : Bool) :
    (screen_erase_in_line s how p).history_line_added_count =
      s.history_line_added_count := by
  simp [screen_erase_in_line]

@[simp] theorem erase_in_display_historybuf (s : Screen) (how : Nat) (p : Bool) :
    (screen_erase_in_display s how p).historybuf = s.historybuf := by
  simp [screen_erase_in_display]

@[simp] theorem erase_in_display_hlac (s : Screen) (how : Nat) (p : Bool) :
    (screen_erase_in_display s how p).history_line_added_count =
      s.history_line_added_count := by
  simp [screen_erase_in_display]

@[simp] theorem insert_lines_historybuf (s : Screen) (n : Nat) :
    (screen_insert_lines s n).historybuf = s.historybuf := by
  simp [screen_insert_lines]

@[simp] theorem insert_lines_hlac (s : Screen) (n : Nat) :
    (screen_insert_lines s n).history_line_added_count =
      s.history_line_added_count := by
  simp [screen_insert_lines]

@[simp] theorem delete_lines_historybuf (s : Screen) (n : Nat) :
    (screen_delete_lines s n).historybuf = s.historybuf := by
  simp [screen_delete_lines]

@[simp] theorem delete_lines_hlac (s : Screen) (n : Nat) :
    (screen_delete_lines s n).history_line_added_count =
      s.history_line_added_count := by
  simp [screen_delete_lines]

@[simp] theorem insert_characters_historybuf (s : Screen) (n : Nat) :
    (screen_insert_characters s n).historybuf = s.historybuf := by
  simp [screen_insert_characters]

@[simp] theorem insert_characters_hlac (s : Screen) (n : Nat) :
    (screen_insert_characters s n).history_line_added_count =
      s.history_line_added_count := by
  simp [screen_insert_characters]

@[simp] theorem delete_characters_historybuf (s : Screen) (n : Nat) :
    (screen_delete_characters s n).historybuf = s.historybuf := by
  simp [screen_delete_characters]

@[simp] theorem delete_characters_hlac (s : Screen) (n : Nat) :
    (screen_delete_characters s n).history_line_added_count =
      s.history_line_added_count := by
  simp [screen_delete_characters]

@[simp] theorem erase_characters_historybuf (s : Screen) (n : Nat) :
    (screen_erase_characters s n).historybuf = s.historybuf := by
  simp [screen_erase_characters]

@[simp] theorem erase_characters_hlac (s : Screen) (n : Nat) :
    (screen_erase_characters s n).history_line_added_count =
      s.history_line_added_count := by
  simp [screen_erase_characters]

@[simp] theorem sgr_screen_historybuf (s : Screen) (p : List Nat) :
    (screen_select_graphic_rendition s p).historybuf = s.historybuf := rfl

@[simp] theorem sgr_screen_hlac (s : Screen) (p : List Nat) :
    (screen_select_graphic_rendition s p).history_line_added_count =
      s.history_line_added_count := rfl

@[simp] theorem set_margins_historybuf (s : Screen) (t b : Nat) :
    (screen_set_margins s t b).historybuf = s.historybuf := by
  simp [screen_set_margins]

@[simp] theorem set_margins_hlac (s : Screen) (t b : Nat) :
    (screen_set_margins s t b).history_line_added_count =
      s.history_line_added_count := by
  simp [screen_set_margins]

@[simp] theorem set_cursor_historybuf (s : Screen) (m sec : Nat) :
    (screen_set_cursor s m sec).historybuf = s.historybuf := by
  simp [screen_set_cursor]

@[simp] theorem set_cursor_hlac (s : Screen) (m sec : Nat) :
    (screen_set_cursor s m sec).history_line_added_count =
      s.history_line_added_count := by
  simp [screen_set_cursor]

@[simp] theorem change_charset_historybuf (s : Screen) (w : Nat) :
    (screen_change_charset s w).historybuf = s.historybuf := by
  simp [screen_change_charset]

@[simp] theorem change_charset_hlac (s : Screen) (w : Nat) :
    (screen_change_charset s w).history_line_added_count =
      s.history_line_added_count := by
  simp [screen_change_charset]

@[simp] theorem designate_charset_historybuf (s : Screen) (w a : Nat) :
    (screen_designate_charset s w a).historybuf = s.historybuf := by
  simp [screen_designate_charset]

@[simp] theorem designate_charset_hlac (s : Screen) (w a : Nat) :
    (screen_designate_charset s w a).history_line_added_count =
      s.history_line_added_count := by
  simp [screen_designate_charset]

@[simp] theorem use_latin1_historybuf (s : Screen) (b : Bool) :
    (screen_use_latin1 s b).historybuf = s.historybuf := rfl

@[simp] theorem use_latin1_hlac (s : Screen) (b : Bool) :
    (screen_use_latin1 s b).history_line_added_count =
      s.history_line_added_count := rfl

@[simp] theorem align_historybuf (s : Screen) :
    (screen_align s).historybuf = s.historybuf := by
  simp [screen_align]

@[simp] theorem align_hlac (s : Screen) :
    (screen_align s).history_line_added_count = s.history_line_added_count := by
  simp [screen_align]

@[simp] theorem alignment_display_historybuf (s : Screen) :
    (screen_alignment_display s).historybuf = s.historybuf := by
  simp [screen_alignment_display]

@[simp] theorem alignment_display_hlac (s : Screen) :
    (screen_alignment_display s).history_line_added_count =
      s.history_line_added_count := by
  simp [screen_alignment_display]

@[simp] theorem reset_charsets_historybuf (s : Screen) :
    (reset_charsets s).historybuf = s.historybuf := rfl

@[simp] theorem reset_charsets_hlac (s : Screen) :
    (reset_charsets s).history_line_added_count = s.history_line_added_count := rfl

@[simp] theorem save_cursor_historybuf (s : Screen) :
    (screen_save_cursor s).historybuf = s.historybuf := by
  simp [screen_save_cursor]

@[simp] theorem save_cursor_hlac (s : Screen) :
    (screen_save_cursor s).history_line_added_count =
      s.history_line_added_count := by
  simp [screen_save_cursor]

@[simp] theorem apply_mode_core_historybuf (s : Screen) (m : Nat) (v : Bool) :
    (apply_mode_core s m v).historybuf = s.historybuf := by
  unfold apply_mode_core
  simp only [screen_ite_historybuf, cursor_position_historybuf,
    erase_in_display_historybuf, ite_self]

@[simp] theorem apply_mode_core_hlac (s : Screen) (m : Nat) (v : Bool) :
    (apply_mode_core s m v).history_line_added_count =
      s.history_line_added_count := by
  unfold apply_mode_core
  simp only [screen_ite_hlac, cursor_position_hlac, erase_in_display_hlac,
    ite_self]

@[simp] theorem restore_cursor_historybuf (s : Screen) :
    (screen_restore_cursor s).historybuf = s.historybuf := by
  unfold screen_restore_cursor
  cases h : savepoints_pop (activeSavepoints s) with
  | none => simp
  | some pr => cases pr; simp

@[simp] theorem restore_cursor_hlac (s : Screen) :
    (screen_restore_cursor s).history_line_added_count =
      s.history_line_added_count := by
  unfold screen_restore_cursor
  cases h : savepoints_pop (activeSavepoints s) with
  | none => simp
  | some pr => cases pr; simp

@[simp] theorem toggle_historybuf (s : Screen) :
    (screen_toggle_screen_buffer s).historybuf = s.historybuf := by
  unfold screen_toggle_screen_buffer
  split <;> simp [screen_save_cursor]

@[simp] theorem toggle_hlac (s : Screen) :
    (screen_toggle_screen_buffer s).history_line_added_count =
      s.history_line_added_count := by
  unfold screen_toggle_screen_buffer
  split <;> simp [screen_save_cursor]

@[simp] theorem set_mode_from_const_historybuf (s : Screen) (m : Nat) (v : Bool) :
    (set_mode_from_const s m v).historybuf = s.historybuf := by
  unfold set_mode_from_const
  split_ifs <;> simp

@[simp] theorem set_mode_from_const_hlac (s : Screen) (m : Nat) (v : Bool) :
    (set_mode_from_const s m v).history_line_added_count =
      s.history_line_added_count := by
  unfold set_mode_from_const
  split_ifs <;> simp

@[simp] theorem reset_historybuf (s : Screen) :
    (screen_reset s).historybuf = s.historybuf := by
  unfold screen_reset
  split <;> simp

@[simp] theorem reset_hlac (s : Screen) :
    (screen_reset s).history_line_added_count = s.history_line_added_count := by
  unfold screen_reset
  split <;> simp

-- Conditional history lemmas: the INDEX_UP path.

@[simp] theorem index_up_is_main (s : Screen) :
    (index_up s).linebuf_is_main = s.linebuf_is_main := by
  simp [index_up]

@[simp] theorem index_up_margin_bottom (s : Screen) :
    (index_up s).margin_bottom = s.margin_bottom := by
  simp [index_up]

@[simp] theorem index_up_lines (s : Screen) :
    (index_up s).lines = s.lines := by
  simp [index_up]

theorem index_up_hist (s : Screen)
    (h : s.linebuf_is_main = false ∨ s.margin_bottom ≠ s.lines - 1) :
    (index_up s).historybuf = s.historybuf ∧
    (index_up s).history_line_added_count = s.history_line_added_count := by
  rcases h with h | h <;> simp [index_up, h]

theorem index_hist (s : Screen)
    (h : s.linebuf_is_main = false ∨ s.margin_bottom ≠ s.lines - 1) :
    (screen_index s).historybuf = s.historybuf ∧
    (screen_index s).history_line_added_count = s.history_line_added_count := by
  unfold screen_index
  split
  · exact index_up_hist s h
  · simp [screen_cursor_down]

theorem linefeed_hist (s : Screen)
    (h : s.linebuf_is_main = false ∨ s.margin_bottom ≠ s.lines - 1) :
    (screen_linefeed s).historybuf = s.historybuf ∧
    (screen_linefeed s).history_line_added_count = s.history_line_added_count := by
  obtain ⟨h1, h2⟩ := index_hist s h
  simp [screen_linefeed, h1, h2]

theorem scroll_hist (s : Screen) (n : Nat)
    (h : s.linebuf_is_main = false ∨ s.margin_bottom ≠ s.lines - 1) :
    (screen_scroll s n).historybuf = s.historybuf ∧
    (screen_scroll s n).history_line_added_count = s.history_line_added_count := by
  unfold screen_scroll
  generalize min s.lines n = k
  induction k generalizing s with
  | zero => exact ⟨rfl, rfl⟩
  | succ k ih =>
    rw [Function.iterate_succ_apply]
    obtain ⟨h1, h2⟩ := index_up_hist s h
    have h' : (index_up s).linebuf_is_main = false ∨
        (index_up s).margin_bottom ≠ (index_up s).lines - 1 := by
      rcases h with h | h <;> simp [h]
    obtain ⟨g1, g2⟩ := ih (index_up s) h'
    exact ⟨g1.trans h1, g2.trans h2⟩

theorem draw_hist (s : Screen) (ch : Nat)
    (h : s.linebuf_is_main = false ∨ s.margin_bottom ≠ s.lines - 1) :
    (screen_draw s ch).historybuf = s.historybuf ∧
    (screen_draw s ch).history_line_added_count = s.history_line_added_count := by
  have hlf := linefeed_hist (screen_carriage_return s)
    (by rcases h with h | h <;> simp [h])
  unfold screen_draw
  simp [screen_set_continued, hlf.1, hlf.2]

-- ---------------------------------------------------------------------------
-- C9: the HistoryBuf is touched only by INDEX_UP on the main buffer
-- ---------------------------------------------------------------------------

/-- C9: (a) `reverse_index` and reverse scrolling never modify the
HistoryBuf or `history_line_added_count`; (b) no operation of the command
surface modifies them while the alternate buffer is active, nor while a
bottom margin is set (`margin_bottom ≠ lines - 1`); (c) operations other
than `index`, `scroll`, `linefeed` and `draw` (the ones that can perform
`INDEX_UP`) never modify them at all. -/
theorem c9_history_isolation :
    (∀ s : Screen, (screen_reverse_index s).historybuf = s.historybuf ∧
        (screen_reverse_index s).history_line_added_count =
          s.history_line_added_count) ∧
    (∀ (s : Screen) (n : Nat),
        (screen_reverse_scroll s n).historybuf = s.historybuf ∧
        (screen_reverse_scroll s n).history_line_added_count =
          s.history_line_added_count) ∧
    (∀ (op : Op) (s : Screen),
        s.linebuf_is_main = false ∨ s.margin_bottom ≠ s.lines - 1 →
        (applyOp op s).historybuf = s.historybuf ∧
        (applyOp op s).history_line_added_count =
          s.history_line_added_count) ∧
    (∀ (op : Op) (s : Screen), op.performsIndex = false →
        (applyOp op s).historybuf = s.historybuf ∧
        (applyOp op s).history_line_added_count =
          s.history_line_added_count) := by
  refine ⟨fun s => ⟨by simp, by simp⟩, fun s n => ⟨by simp, by simp⟩, ?_, ?_⟩
  · intro op s h
    cases op <;>
      first
        | exact draw_hist _ _ h
        | exact index_hist _ h
        | exact scroll_hist _ _ h
        | exact linefeed_hist _ h
        | exact ⟨by simp [applyOp, screen_set_mode, screen_reset_mode,
              screen_cursor_forward, screen_cursor_up1, screen_cursor_down,
              screen_cursor_down1],
            by simp [applyOp, screen_set_mode, screen_reset_mode,
              screen_cursor_forward, screen_cursor_up1, screen_cursor_down,
              screen_cursor_down1]⟩
  · intro op s hop
    cases op <;>
      first
        | exact Bool.noConfusion hop
        | exact ⟨by simp [applyOp, screen_set_mode, screen_reset_mode,
              screen_cursor_forward, screen_cursor_up1, screen_cursor_down,
              screen_cursor_down1],
            by simp [applyOp, screen_set_mode, screen_reset_mode,
              screen_cursor_forward, screen_cursor_up1, screen_cursor_down,
              screen_cursor_down1]⟩

/-- C9 witness: with the alternate buffer active (after a toggle on a
fresh 2x2 screen), `index` leaves the history and the counter
unchanged. -/
theorem c9_history_isolation_witness :
    ((screen_toggle_screen_buffer (screen_create 2 2 5)).linebuf_is_main = false ∨
      (screen_toggle_screen_buffer (screen_create 2 2 5)).margin_bottom ≠
        (screen_toggle_screen_buffer (screen_create 2 2 5)).lines - 1) ∧
    ((applyOp Op.index (screen_toggle_screen_buffer (screen_create 2 2 5))).historybuf =
        (screen_toggle_screen_buffer (screen_create 2 2 5)).historybuf ∧
     (applyOp Op.index
          (screen_toggle_screen_buffer (screen_create 2 2 5))).history_line_added_count =
        (screen_toggle_screen_buffer (screen_create 2 2 5)).history_line_added_count) :=
  ⟨by decide,
    c9_history_isolation.2.2.1 Op.index
      (screen_toggle_screen_buffer (screen_create 2 2 5)) (by decide)⟩

-- Field-frame lemmas along the drawing path (used by the wrap invariant).

@[simp] theorem carriage_return_f_columns (s : Screen) :
    (screen_carriage_return s).columns = s.columns := by simp [screen_carriage_return]

@[simp] theorem carriage_return_f_margin_top (s : Screen) :
    (screen_carriage_return s).margin_top = s.margin_top := by simp [screen_carriage_return]

@[simp] theorem carriage_return_f_modes (s : Screen) :
    (screen_carriage_return s).modes = s.modes := by simp [screen_carriage_return]

@[simp] theorem ensure_bounds_f_columns (s : Screen) (f : Bool) :
    (screen_ensure_bounds s f).columns = s.columns := rfl

@[simp] theorem ensure_bounds_f_lines (s : Screen) (f : Bool) :
    (screen_ensure_bounds s f).lines = s.lines := rfl

@[simp] theorem ensure_bounds_f_linebuf_is_main (s : Screen) (f : Bool) :
    (screen_ensure_bounds s f).linebuf_is_main = s.linebuf_is_main := rfl

@[simp] theorem ensure_bounds_f_margin_top (s : Screen) (f : Bool) :
    (screen_ensure_bounds s f).margin_top = s.margin_top := rfl

@[simp] theorem ensure_bounds_f_margin_bottom (s : Screen) (f : Bool) :
    (screen_ensure_bounds s f).margin_bottom = s.margin_bottom := rfl

@[simp] theorem ensure_bounds_f_modes (s : Screen) (f : Bool) :
    (screen_ensure_bounds s f).modes = s.modes := rfl

@[simp] theorem cursor_up_f_columns (s : Screen) (n : Nat) (cr : Bool) (d : Int) :
    (screen_cursor_up s n cr d).columns = s.columns := by simp [screen_cursor_up, screen_ensure_bounds]

@[simp] theorem cursor_up_f_margin_top (s : Screen) (n : Nat) (cr : Bool) (d : Int) :
    (screen_cursor_up s n cr d).margin_top = s.margin_top := by simp [screen_cursor_up, screen_ensure_bounds]

@[simp] theorem cursor_up_f_modes (s : Screen) (n : Nat) (cr : Bool) (d : Int) :
    (screen_cursor_up s n cr d).modes = s.modes := by simp [screen_cursor_up, screen_ensure_bounds]

@[simp] theorem index_up_f_columns (s : Screen) :
    (index_up s).columns = s.columns := by simp [index_up]

@[simp] theorem index_up_f_margin_top (s : Screen) :
    (index_up s).margin_top = s.margin_top := by simp [index_up]

@[simp] theorem index_up_f_modes (s : Screen) :
    (index_up s).modes = s.modes := by simp [index_up]

@[simp] theorem index_f_columns (s : Screen) :
    (screen_index s).columns = s.columns := by
  unfold screen_index
  split <;> simp [screen_cursor_down]

@[simp] theorem index_f_lines (s : Screen) :
    (screen_index s).lines = s.lines := by
  unfold screen_index
  split <;> simp [screen_cursor_down]

@[simp] theorem index_f_linebuf_is_main (s : Screen) :
    (screen_index s).linebuf_is_main = s.linebuf_is_main := by
  unfold screen_index
  split <;> simp [screen_cursor_down]

@[simp] theorem index_f_margin_top (s : Screen) :
    (screen_index s).margin_top = s.margin_top := by
  unfold screen_index
  split <;> simp [screen_cursor_down]

@[simp] theorem index_f_margin_bottom (s : Screen) :
    (screen_index s).margin_bottom = s.margin_bottom := by
  unfold screen_index
  split <;> simp [screen_cursor_down]

@[simp] theorem index_f_modes (s : Screen) :
    (screen_index s).modes = s.modes := by
  unfold screen_index
  split <;> simp [screen_cursor_down]

@[simp] theorem linefeed_f_columns (s : Screen) :
    (screen_linefeed s).columns = s.columns := by
  simp [screen_linefeed]

@[simp] theorem linefeed_f_lines (s : Screen) :
    (screen_linefeed s).lines = s.lines := by
  simp [screen_linefeed]

@[simp] theorem linefeed_f_linebuf_is_main (s : Screen) :
    (screen_linefeed s).linebuf_is_main = s.linebuf_is_main := by
  simp [screen_linefeed]

@[simp] theorem linefeed_f_margin_top (s : Screen) :
    (screen_linefeed s).margin_top = s.margin_top := by
  simp [screen_linefeed]

@[simp] theorem linefeed_f_margin_bottom (s : Screen) :
    (screen_linefeed s).margin_bottom = s.margin_bottom := by
  simp [screen_linefeed]

@[simp] theorem linefeed_f_modes (s : Screen) :
    (screen_linefeed s).modes = s.modes := by
  simp [screen_linefeed]

@[simp] theorem set_continued_f_columns (s : Screen) (y : Nat) (b : Bool) :
    (screen_set_continued s y b).columns = s.columns := by
  simp [screen_set_continued]

@[simp] theorem set_continued_f_lines (s : Screen) (y : Nat) (b : Bool) :
    (screen_set_continued s y b).lines = s.lines := by
  simp [screen_set_continued]

@[simp] theorem set_continued_f_linebuf_is_main (s : Screen) (y : Nat) (b : Bool) :
    (screen_set_continued s y b).linebuf_is_main = s.linebuf_is_main := by
  simp [screen_set_continued]

@[simp] theorem set_continued_f_margin_top (s : Screen) (y : Nat) (b : Bool) :
    (screen_set_continued s y b).margin_top = s.margin_top := by
  simp [screen_set_continued]

@[simp] theorem set_continued_f_margin_bottom (s : Screen) (y : Nat) (b : Bool) :
    (screen_set_continued s y b).margin_bottom = s.margin_bottom := by
  simp [screen_set_continued]

@[simp] theorem set_continued_f_modes (s : Screen) (y : Nat) (b : Bool) :
    (screen_set_continued s y b).modes = s.modes := by
  simp [screen_set_continued]

@[simp] theorem draw_f_columns (s : Screen) (c : Nat) :
    (screen_draw s c).columns = s.columns := by
  simp [screen_draw, screen_set_continued]

@[simp] theorem draw_f_lines (s : Screen) (c : Nat) :
    (screen_draw s c).lines = s.lines := by
  simp [screen_draw, screen_set_continued]

@[simp] theorem draw_f_linebuf_is_main (s : Screen) (c : Nat) :
    (screen_draw s c).linebuf_is_main = s.linebuf_is_main := by
  simp [screen_draw, screen_set_continued]

@[simp] theorem draw_f_margin_top (s : Screen) (c : Nat) :
    (screen_draw s c).margin_top = s.margin_top := by
  simp [screen_draw, screen_set_continued]

@[simp] theorem draw_f_margin_bottom (s : Screen) (c : Nat) :
    (screen_draw s c).margin_bottom = s.margin_bottom := by
  simp [screen_draw, screen_set_continued]

@[simp] theorem draw_f_modes (s : Screen) (c : Nat) :
    (screen_draw s c).modes = s.modes := by
  simp [screen_draw, screen_set_continued]

-- The two cases of drawing one plain width-1 glyph.

theorem draw_plain_nowrap (s : Screen) (c q x : Nat)
    (hmain : s.linebuf_is_main = true)
    (hirm : s.modes.mIRM = false)
    (hcx : s.cursor.x = x) (hcy : s.cursor.y = q)
    (hig : is_ignored_char c = false) (hw : safe_wcwidth c = 1)
    (hlt : x < s.columns) :
    (screen_draw s c).cursor.x = x + 1 ∧
    (screen_draw s c).cursor.y = q ∧
    (∀ j, continuedAt (screen_draw s c) j = continuedAt s j) ∧
    (∀ j i, charAt (screen_draw s c) j i =
      if j = q ∧ i = x then c else charAt s j i) := by
  have hnw : s.columns - x ≠ 0 := by omega
  refine ⟨?_, ?_, ?_, ?_⟩
  · simp [screen_draw, hig, hw, hnw, hirm, charset_lookup, hcx, hcy]
  · simp [screen_draw, hig, hw, hnw, hirm, charset_lookup, hcx, hcy]
  · intro j
    by_cases hj : j = q <;>
      simp [screen_draw, hig, hw, hnw, hirm, charset_lookup, hcx, hcy, hj] <;>
      simp [continuedAt, activeLinebuf, setActiveLinebuf, hmain,
        linebuf_mod_row, linebuf_set_row, line_set_char, row_set_cell, hj]
  · intro j i
    by_cases hj : j = q <;> by_cases hix : i = x <;>
      simp [screen_draw, hig, hw, hnw, hirm, charset_lookup, hcx, hcy, hj, hix] <;>
      simp [charAt, activeLinebuf, setActiveLinebuf, hmain,
        linebuf_mod_row, linebuf_set_row, line_set_char, row_set_cell,
        cellFromCursor, hj, hix]

theorem draw_plain_wrap (s : Screen) (c q : Nat)
    (hmain : s.linebuf_is_main = true)
    (hawm : s.modes.mDECAWM = true)
    (hirm : s.modes.mIRM = false)
    (hdecom : s.modes.mDECOM = false)
    (hmt : s.margin_top = 0)
    (hmb : s.margin_bottom = s.lines - 1)
    (hcx : s.cursor.x = s.columns) (hcy : s.cursor.y = q)
    (hcols : 1 ≤ s.columns)
    (hq : q + 1 < s.lines)
    (hig : is_ignored_char c = false) (hw : safe_wcwidth c = 1) :
    (screen_draw s c).cursor.x = 1 ∧
    (screen_draw s c).cursor.y = q + 1 ∧
    (∀ j, continuedAt (screen_draw s c) j =
      if j = q + 1 then true else continuedAt s j) ∧
    (∀ j i, charAt (screen_draw s c) j i =
      if j = q + 1 ∧ i = 0 then c else charAt s j i) := by
  have hwrap : s.columns - s.cursor.x < 1 := by rw [hcx]; omega
  have hx0 : ¬(s.cursor.x = 0) := by omega
  have hc0 : ¬(s.columns = 0) := by omega
  have hne : ¬(q = s.lines - 1) := by omega
  have hint : ((q : Int) + 1 * 1).toNat = q + 1 := by omega
  have hmin : min (q + 1) (s.lines - 1) = q + 1 := by omega
  refine ⟨?_, ?_, ?_, ?_⟩
  · simp [screen_draw, screen_carriage_return, screen_linefeed, screen_index,
      screen_cursor_down, screen_cursor_up, screen_ensure_bounds,
      screen_set_continued, hig, hw, hwrap, hawm, hirm, hdecom, hmt, hmb,
      hcx, hcy, hx0, hc0, hne, hint, hmin, charset_lookup]
  · simp [screen_draw, screen_carriage_return, screen_linefeed, screen_index,
      screen_cursor_down, screen_cursor_up, screen_ensure_bounds,
      screen_set_continued, hig, hw, hwrap, hawm, hirm, hdecom, hmt, hmb,
      hcx, hcy, hx0, hc0, hne, hint, hmin, charset_lookup]
  · intro j
    by_cases hj : j = q + 1 <;>
      simp [screen_draw, screen_carriage_return, screen_linefeed, screen_index,
        screen_cursor_down, screen_cursor_up, screen_ensure_bounds,
        screen_set_continued, hig, hw, hwrap, hawm, hirm, hdecom, hmt, hmb,
        hcx, hcy, hx0, hc0, hne, hint, hmin, charset_lookup, hj] <;>
      simp [continuedAt, activeLinebuf, setActiveLinebuf, hmain,
        linebuf_mod_row, linebuf_set_row, line_set_char, row_set_cell, hj]
  · intro j i
    by_cases hj : j = q + 1 <;> by_cases hix : i = 0 <;>
      simp [screen_draw, screen_carriage_return, screen_linefeed, screen_index,
        screen_cursor_down, screen_cursor_up, screen_ensure_bounds,
        screen_set_continued, hig, hw, hwrap, hawm, hirm, hdecom, hmt, hmb,
        hcx, hcy, hx0, hc0, hne, hint, hmin, charset_lookup, hj, hix] <;>
      simp [charAt, activeLinebuf, setActiveLinebuf, hmain,
        linebuf_mod_row, linebuf_set_row, line_set_char, row_set_cell,
        cellFromCursor, hj, hix]

-- Euclidean uniqueness of the (row, column) decomposition of a cell index.

theorem row_col_unique {cols a i b j : Nat} (hcols : 0 < cols)
    (hi : i < cols) (hj : j < cols) (h : a * cols + i = b * cols + j) :
    a = b ∧ i = j := by
  have ha : (a * cols + i) / cols = a := by
    rw [Nat.mul_comm a cols, Nat.mul_add_div hcols, Nat.div_eq_of_lt hi,
      Nat.add_zero]
  have hb : (b * cols + j) / cols = b := by
    rw [Nat.mul_comm b cols, Nat.mul_add_div hcols, Nat.div_eq_of_lt hj,
      Nat.add_zero]
  have hab : a = b := by rw [← ha, ← hb, h]
  subst hab
  omega

theorem drawinv_base (lines cols sb : Nat) (cs : List Nat) :
    DrawInv cols lines cs 0 0 0 (screen_create lines cols sb) := by
  refine ⟨rfl, rfl, rfl, rfl, rfl, rfl, rfl, rfl, rfl, rfl, ?_, ?_⟩
  · intro j
    simp [continuedAt, activeLinebuf, screen_create, alloc_linebuf, blankRow]
    omega
  · intro j i _
    simp [charAt, activeLinebuf, screen_create, alloc_linebuf, blankRow,
      blankCell, BLANK_CHAR]

/-- After drawing the first `k` plain width-1 codepoints of `cs` on a
fresh screen, the invariant `DrawInv` holds at the cursor position
determined by `k`. -/
theorem drawinv_fold (lines cols sb : Nat) (cs : List Nat)
    (hcols : 1 ≤ cols) (_hlines : 1 ≤ lines)
    (hgood : ∀ c ∈ cs, is_ignored_char c = false ∧ safe_wcwidth c = 1)
    (hlen : cs.length ≤ lines * cols) :
    ∀ k, k ≤ cs.length →
      ∃ q x, k = q * cols + x ∧ x ≤ cols ∧ (x = 0 → k = 0 ∧ q = 0) ∧
        DrawInv cols lines cs k q x
          (drawMany (screen_create lines cols sb) (cs.take k)) := by
  intro k
  induction k with
  | zero =>
    intro _
    exact ⟨0, 0, by omega, by omega, fun _ => ⟨rfl, rfl⟩,
      by simpa [drawMany] using drawinv_base lines cols sb cs⟩
  | succ k ih =>
    intro hk1
    obtain ⟨q, x, hkqx, hxle, hx0, hinv⟩ := ih (by omega)
    have hklt : k < cs.length := hk1
    obtain ⟨c, hc⟩ : ∃ c, cs.get? k = some c := by
      cases h : cs.get? k with
      | none =>
        rw [List.get?_eq_none] at h
        omega
      | some c => exact ⟨c, rfl⟩
    have hmem : c ∈ cs := List.get?_mem hc
    obtain ⟨hig, hw⟩ := hgood c hmem
    have hget : cs.getD k 0 = c := by
      show (cs.get? k).getD 0 = c
      rw [hc]
      rfl
    have hdm : drawMany (screen_create lines cols sb) (cs.take (k + 1))
        = screen_draw (drawMany (screen_create lines cols sb) (cs.take k)) c := by
      rw [List.take_succ, ← List.get?_eq_getElem?, hc]
      simp [drawMany]
    obtain ⟨hco, hli, hmain, hmt, hmb, hawm, hdecom, hirm, hcx, hcy, hcont, hchar⟩ :=
      hinv
    set t := drawMany (screen_create lines cols sb) (cs.take k) with ht
    have hkb : k + 1 ≤ lines * cols := le_trans hk1 hlen
    by_cases hxc : x = cols
    · -- the row is full: the glyph wraps onto row q+1
      have hmul : (q + 1) * cols = q * cols + cols := by ring
      have hq1 : q + 1 < lines := by
        by_contra hcon
        push_neg at hcon
        have hmm : lines * cols ≤ (q + 1) * cols :=
          Nat.mul_le_mul_right cols hcon
        omega
      obtain ⟨gx, gy, gcont, gchar⟩ :=
        draw_plain_wrap t c q hmain hawm hirm hdecom hmt
          (by rw [hmb, hli]) (by rw [hcx, hxc, ← hco]) hcy
          (by rw [hco]; exact hcols) (by rw [hli]; exact hq1) hig hw
      refine ⟨q + 1, 1, by omega, by omega, by omega, ?_⟩
      rw [hdm]
      refine ⟨by simp [hco], by simp [hli], by simp [hmain], by simp [hmt],
        by simp [hmb], by simp [hawm], by simp [hdecom], by simp [hirm],
        gx, gy, ?_, ?_⟩
      · intro j
        rw [gcont j]
        by_cases hj : j = q + 1
        · subst hj
          have hpos : 1 ≤ q + 1 ∧ q + 1 ≤ q + 1 := by omega
          simp [hpos]
        · rw [if_neg hj, hcont j]
          exact decide_eq_decide.mpr (by omega)
      · intro j i hi
        rw [gchar j i]
        by_cases hji : j = q + 1 ∧ i = 0
        · obtain ⟨hj, hi0⟩ := hji
          subst hj; subst hi0
          rw [if_pos ⟨rfl, rfl⟩, if_pos (by omega), show (q + 1) * cols + 0 = k by omega,
            hget]
        · rw [if_neg hji, hchar j i hi]
          rcases Nat.lt_trichotomy (j * cols + i) k with h | h | h
          · rw [if_pos h, if_pos (by omega)]
          · exfalso
            have he2 : j * cols + i = (q + 1) * cols + 0 := by omega
            obtain ⟨hj', hi'⟩ := row_col_unique (by omega) hi (by omega) he2
            exact hji ⟨hj', hi'⟩
          · rw [if_neg (by omega), if_neg (by omega)]
    · -- room remains in row q
      have hxlt : x < cols := by omega
      obtain ⟨gx, gy, gcont, gchar⟩ :=
        draw_plain_nowrap t c q x hmain hirm hcx hcy hig hw
          (by rw [hco]; exact hxlt)
      refine ⟨q, x + 1, by omega, by omega, by omega, ?_⟩
      rw [hdm]
      refine ⟨by simp [hco], by simp [hli], by simp [hmain], by simp [hmt],
        by simp [hmb], by simp [hawm], by simp [hdecom], by simp [hirm],
        gx, gy, ?_, ?_⟩
      · intro j
        rw [gcont j, hcont j]
      · intro j i hi
        rw [gchar j i]
        by_cases hji : j = q ∧ i = x
        · obtain ⟨hj, hix⟩ := hji
          subst hj; subst hix
          rw [if_pos ⟨rfl, rfl⟩, if_pos (by omega), ← hkqx, hget]
        · rw [if_neg hji, hchar j i hi]
          rcases Nat.lt_trichotomy (j * cols + i) k with h | h | h
          · rw [if_pos h, if_pos (by omega)]
          · exfalso
            have he2 : j * cols + i = q * cols + x := by omega
            obtain ⟨hj', hi'⟩ := row_col_unique (by omega) hi hxlt he2
            exact hji ⟨hj', hi'⟩
          · rw [if_neg (by omega), if_neg (by omega)]

-- ---------------------------------------------------------------------------
-- C1 (amended): the continued flag sits on the wrapped-onto rows
-- ---------------------------------------------------------------------------

/-- C1 as amended: with DECAWM on, drawing a sequence of plain width-1
codepoints that fills `n = (len-1)/cols + 1` rows of a fresh screen marks
exactly the wrapped-onto rows `1 .. n-1` as `continued` (row 0 and every
row from `n` on are not continued); on a 4x4 screen drawing "ABCDE"
leaves row 0 = "ABCD" with continued = false, row 1 = "E" padded with
blank cells with continued = true, and the cursor at (x, y) = (1, 1). -/
theorem c1_wrap_continued :
    (∀ (lines cols sb : Nat) (cs : List Nat),
      1 ≤ cols → 1 ≤ lines →
      (∀ c ∈ cs, is_ignored_char c = false ∧ safe_wcwidth c = 1) →
      1 ≤ cs.length → cs.length ≤ lines * cols →
      ∀ j, continuedAt (drawMany (screen_create lines cols sb) cs) j =
        decide (1 ≤ j ∧ j ≤ (cs.length - 1) / cols)) ∧
    (charAt wrapDemo 0 0 = 65 ∧ charAt wrapDemo 0 1 = 66 ∧
     charAt wrapDemo 0 2 = 67 ∧ charAt wrapDemo 0 3 = 68 ∧
     charAt wrapDemo 1 0 = 69 ∧ charAt wrapDemo 1 1 = 0 ∧
     charAt wrapDemo 1 2 = 0 ∧ charAt wrapDemo 1 3 = 0 ∧
     continuedAt wrapDemo 0 = false ∧ continuedAt wrapDemo 1 = true ∧
     wrapDemo.cursor.x = 1 ∧ wrapDemo.cursor.y = 1) := by
  constructor
  · intro lines cols sb cs hcols hlines hgood hlen1 hlen2 j
    obtain ⟨q, x, hkqx, hxle, hx0, hinv⟩ :=
      drawinv_fold lines cols sb cs hcols hlines hgood hlen2 cs.length le_rfl
    rw [List.take_length] at hinv
    obtain ⟨_, _, _, _, _, _, _, _, _, _, hcont, _⟩ := hinv
    rw [hcont j]
    have hx1 : 1 ≤ x := by
      rcases Nat.eq_zero_or_pos x with h0 | h1
      · obtain ⟨hk0, _⟩ := hx0 h0
        omega
      · exact h1
    have hq : (cs.length - 1) / cols = q := by
      have hsplit : cs.length - 1 = q * cols + (x - 1) := by omega
      rw [hsplit, Nat.mul_comm q cols, Nat.mul_add_div (by omega),
        Nat.div_eq_of_lt (by omega), Nat.add_zero]
    rw [hq]
  · decide

/-- C1 witness: the 4x4 "ABCDE" scenario instantiates the general wrap
statement. -/
theorem c1_wrap_continued_witness :
    ((1 : Nat) ≤ 4 ∧ (1 : Nat) ≤ 4 ∧
     (∀ c ∈ [65, 66, 67, 68, 69], is_ignored_char c = false ∧ safe_wcwidth c = 1) ∧
     1 ≤ ([65, 66, 67, 68, 69] : List Nat).length ∧
     ([65, 66, 67, 68, 69] : List Nat).length ≤ 4 * 4) ∧
    (∀ j, continuedAt (drawMany (screen_create 4 4 0) [65, 66, 67, 68, 69]) j =
      decide (1 ≤ j ∧ j ≤ (([65, 66, 67, 68, 69] : List Nat).length - 1) / 4)) :=
  ⟨⟨by decide, by decide, by decide, by decide, by decide⟩,
    c1_wrap_continued.1 4 4 0 [65, 66, 67, 68, 69] (by decide) (by decide)
      (by decide) (by decide) (by decide)⟩

end Kitty
